import Mathlib

/-!
Shallow embedding of the type-store core of the checker
(`src/checker/src/types/store.rs`) and of its regular-expression
partial evaluator (`src/checker/src/features/regexp.rs`), together with
theorems settling the behavioural claims about them.

Conventions of the embedding:
* Rust `String` is modelled as `List Char` (`Str` below).
* `TypeId(u16)` is modelled as `Nat`; the `u16` bound is checked explicitly
  where the source checks it (`register_type`).
* Panicking paths (`panic!`/`todo!`/indexing out of bounds/`expect`) are
  modelled by `Option`: a `none` result means the Rust code aborts.
* IEEE-754 `f64` is modelled by `FpNumber`, which keeps exactly the
  distinctions the source observes: NaN, the infinities and finite values
  (with a negative-zero marker that IEEE `==` ignores).
-/

/-- Rust `String` / `&str`, modelled as a list of characters. -/
abbrev Str := List Char

/-- `TypeId(u16)` from the checker; modelled as `Nat` with the `u16` range
checked explicitly in `register_type`. -/
abbrev TypeId := Nat

/-- Model of IEEE-754 `f64` keeping only the distinctions the embedded code
observes: NaN (all payloads identified), the two infinities, and finite
values as exact rationals.  `negZero` marks the value `-0.0`; it is only
meaningful when `val = 0` and is ignored by IEEE equality. -/
inductive FpNumber where
  | nan
  | posInf
  | negInf
  | finite (val : ℚ) (negZero : Bool)
deriving DecidableEq

namespace FpNumber

/-- IEEE-754 `==` on `f64`: NaN is unequal to everything (itself included),
`-0.0 == 0.0`, each infinity equals only itself, finite values compare by
numeric value. -/
def ieeeEq : FpNumber → FpNumber → Bool
  | finite a _, finite b _ => a == b
  | posInf, posInf => true
  | negInf, negInf => true
  | _, _ => false

/-- IEEE-754 `is_nan`. -/
def is_nan : FpNumber → Bool
  | nan => true
  | _ => false

/-- `f64::MAX` = (2 - 2^-52) * 2^1023. -/
def f64MAX : FpNumber := .finite ((2 : ℚ) ^ 1024 - (2 : ℚ) ^ 971) false

/-- `f64::MIN` = -`f64::MAX`. -/
def f64MIN : FpNumber := .finite (-((2 : ℚ) ^ 1024 - (2 : ℚ) ^ 971)) false

/-- `f64::EPSILON` = 2^-52. -/
def f64EPSILON : FpNumber := .finite (1 / (2 : ℚ) ^ 52) false

/-- Conversion of a natural number (e.g. a match offset `as f64`). -/
def ofNat (n : Nat) : FpNumber := .finite (n : ℚ) false

end FpNumber

/-- `crate::Constant`: the leaf constant values of the type lattice. -/
inductive Constant where
  | String (s : Str)
  | Number (n : FpNumber)
  | Boolean (b : Bool)
  | Symbol (key : Str)
  | Undefined
deriving DecidableEq

/-- `crate::events::RootReference` (source file not under `src/`); only the
`This` case appears in the store's initial contents. -/
inductive RootReference where
  | This
deriving DecidableEq

/-- `VariableId`, a small-integer handle. -/
abbrev VariableId := Nat

/-- `PolyNature` from `types/mod.rs`: the nature of a polymorphic root.
Field `extends` of the source is written `extends'` because `extends` is a
Lean keyword. -/
inductive PolyNature where
  | Parameter (fixed_to : TypeId) (variable_id : VariableId)
  | FreeVariable (reference : RootReference) (based_on : TypeId)
  | StructureGeneric (name : Str) (extends' : TypeId)
  | FunctionGeneric (name : Str) (extends' : TypeId)
  | MappedGeneric (name : Str) (extends' : TypeId)
  | Open (base : TypeId)
  | Error (base : TypeId)
deriving DecidableEq

/-- `FunctionId(SourceId, u32)`: identity of a function descriptor. -/
abbrev FunctionId := Nat × Nat

/-- `types::calling::ThisValue` (source file not under `src/`); only the
default binding and `UseParent` are used by the store. -/
inductive ThisValue where
  | Default
  | UseParent
deriving DecidableEq

/-- Property keys (`types::properties::PropertyKey`, not under `src/`).
Modelled from the spec: string keys and the numeric keys produced by
`PropertyKey::from_usize`. -/
inductive PropKey where
  | str (s : Str)
  | num (n : Nat)
deriving DecidableEq

/-- The store-resident data of a compiled `RegExp`
(`features/regexp.rs`).  The compiled `regress` matcher `re` is state of an
external crate; it is modelled as a matcher function supplied separately to
the evaluation functions, so that descriptors stay decidably comparable. -/
structure RegExpData where
  source : Str
  groups : Nat
  named_group_indices : List (Str × Nat)
  flags_unsupported : Bool
  used : Bool
deriving DecidableEq

/-- `features::objects::SpecialObject`: built-in distinguished objects. -/
inductive SpecialObject where
  | Null
  | Function (id : FunctionId) (this_value : ThisValue)
  | RegularExpression (regexp : RegExpData)
deriving DecidableEq

/-- `ObjectNature` from `types/mod.rs`: real objects versus anonymous type
annotation objects (whose property list is modelled with `PropKey`). -/
inductive ObjectNature where
  | RealDeal
  | AnonymousTypeAnn (properties : List (PropKey × TypeId))
deriving DecidableEq

/-- Source positions (`source_map::SpanWithSource`).  No embedded operation
observes the contents of a span, so it is modelled by its null token. -/
inductive SpanWithSource where
  | NULL
deriving DecidableEq

/-- `GenericArguments` for partially applied generics.  The
`ExplicitRestrictions` map is modelled as an association list. -/
inductive GenericArguments where
  | ExplicitRestrictions (restrictions : List (TypeId × (TypeId × SpanWithSource)))
deriving DecidableEq

/-- `types::Constructor`: derived symbolic types.  Only the variants reached
by the embedded operations are modelled. -/
inductive TyConstructor where
  | ConditionalResult (condition truthy_result otherwise_result result_union : TypeId)
  | TypeExtends (item : TypeId) (extends' : TypeId)
  | KeyOf (of : TypeId)
deriving DecidableEq

/-- `types::Type` — the tagged descriptor variant (named `Ty` because `Type`
is a Lean sort).  `extends`/`from` fields are primed because they are Lean
keywords; the `PartiallyAppliedGenerics` payload struct is flattened into
its two fields. -/
inductive Ty where
  | Interface (name : Str) (parameters : Option (List TypeId)) (extends' : Option TypeId)
  | Class (name : Str) (type_parameters : Option (List TypeId))
  | AliasTo (to' : TypeId) (name : Str) (parameters : Option (List TypeId))
  | Constant (constant : Constant)
  | Or (lhs rhs : TypeId)
  | And (lhs rhs : TypeId)
  | Object (nature : ObjectNature)
  | SpecialObject (so : SpecialObject)
  | FunctionReference (id : FunctionId)
  | RootPolyType (nature : PolyNature)
  | PartiallyAppliedGenerics (on' : TypeId) (arguments : GenericArguments)
  | Constructor (c : TyConstructor)
  | Narrowed (from' narrowed_to : TypeId)
deriving DecidableEq

namespace TypeId

/-- Built-in identifiers, in the exact order of the descriptors pushed by
`TypeStore::default` ("These have to be in the order of the `impl TypeId`"). -/
def ERROR_TYPE : TypeId := 0

def NEVER_TYPE : TypeId := 1

def ANY_TYPE : TypeId := 2

def BOOLEAN_TYPE : TypeId := 3

def NUMBER_TYPE : TypeId := 4

def STRING_TYPE : TypeId := 5

def UNDEFINED_TYPE : TypeId := 6

def NULL_TYPE : TypeId := 7

def VOID_TYPE : TypeId := 8

def ARRAY_TYPE : TypeId := 9

def PROMISE_TYPE : TypeId := 10

def T_TYPE : TypeId := 11

def OBJECT_TYPE : TypeId := 12

def FUNCTION_TYPE : TypeId := 13

def REGEXP_TYPE : TypeId := 14

def SYMBOL_TYPE : TypeId := 15

def TRUE : TypeId := 16

def FALSE : TypeId := 17

def ZERO : TypeId := 18

def ONE : TypeId := 19

def NAN : TypeId := 20

def NEG_INFINITY : TypeId := 21

def INFINITY : TypeId := 22

def FLOAT_MIN : TypeId := 23

def FLOAT_MAX : TypeId := 24

def FLOAT_EPSILON : TypeId := 25

def MAX_U32 : TypeId := 26

def EMPTY_STRING : TypeId := 27

def THIS_ARG : TypeId := 28

def NEW_TARGET_ARG : TypeId := 29

def IMPORT_META : TypeId := 30

def SYMBOL_ITERATOR : TypeId := 31

def SYMBOL_ASYNC_ITERATOR : TypeId := 32

def SYMBOL_HAS_INSTANCE : TypeId := 33

def SYMBOL_TO_PRIMITIVE : TypeId := 34

def STRING_GENERIC : TypeId := 35

def STRING_UPPERCASE : TypeId := 36

def STRING_LOWERCASE : TypeId := 37

def STRING_CAPITALIZE : TypeId := 38

def STRING_UNCAPITALIZE : TypeId := 39

def NO_INFER : TypeId := 40

def READONLY_RESTRICTION : TypeId := 41

def NON_OPTIONAL_KEY_ARGUMENT : TypeId := 42

def WRITABLE_KEY_ARGUMENT : TypeId := 43

def NUMBER_GENERIC : TypeId := 44

def GREATER_THAN : TypeId := 45

def LESS_THAN : TypeId := 46

def MULTIPLE_OF : TypeId := 47

def NOT_NOT_A_NUMBER : TypeId := 48

def NUMBER_BUT_NOT_NOT_A_NUMBER : TypeId := 49

def LITERAL_RESTRICTION : TypeId := 50

def EXCLUSIVE_RESTRICTION : TypeId := 51

def NOT_RESTRICTION : TypeId := 52

def CASE_INSENSITIVE : TypeId := 53

def OPEN_BOOLEAN_TYPE : TypeId := 54

def OPEN_NUMBER_TYPE : TypeId := 55

def STRING_OR_NUMBER : TypeId := 56

/-- The published count of built-in types. -/
def INTERNAL_TYPE_COUNT : Nat := 57

end TypeId

/-- `LookUpGeneric`: per-parameter lookup rule attached to a prototype. -/
inductive LookUpGeneric where
  | NumberPropertyOfSelf
deriving DecidableEq

/-- The type store (`TypeStore` in `store.rs`).  The `types` arena and the
`lookup_generic_map` are modelled; the remaining fields
(`parameter_names`, `functions`, `called_functions`, `closure_counter`)
are never observed by the operations under verification and are omitted. -/
structure TypeStore where
  types : List Ty
  lookup_generic_map : List (TypeId × List (TypeId × LookUpGeneric))
deriving DecidableEq

namespace TypeStore

/-- `TypeStore::default` — the fixed built-in descriptor sequence, in order. -/
def default : TypeStore :=
  TypeStore.mk
    [ Ty.RootPolyType (.Error TypeId.ANY_TYPE),
      Ty.Interface "never".toList none none,
      Ty.Interface "any".toList none none,
      Ty.Class "boolean".toList none,
      Ty.Class "number".toList none,
      Ty.Class "string".toList none,
      Ty.Constant .Undefined,
      Ty.SpecialObject .Null,
      Ty.AliasTo TypeId.UNDEFINED_TYPE "void".toList none,
      Ty.Class "Array".toList (some [TypeId.T_TYPE]),
      Ty.Class "Promise".toList (some [TypeId.T_TYPE]),
      Ty.RootPolyType (.StructureGeneric "T".toList TypeId.ANY_TYPE),
      Ty.Interface "object".toList none none,
      Ty.Class "Function".toList none,
      Ty.Class "RegExp".toList none,
      Ty.Class "Symbol".toList none,
      Ty.Constant (.Boolean true),
      Ty.Constant (.Boolean false),
      Ty.Constant (.Number (.finite 0 false)),
      Ty.Constant (.Number (.finite 1 false)),
      Ty.Constant (.Number .nan),
      Ty.Constant (.Number .negInf),
      Ty.Constant (.Number .posInf),
      Ty.Constant (.Number .f64MIN),
      Ty.Constant (.Number .f64MAX),
      Ty.Constant (.Number .f64EPSILON),
      Ty.Constant (.Number (.finite (-1) false)),
      Ty.Constant (.String []),
      Ty.RootPolyType (.FreeVariable .This TypeId.ANY_TYPE),
      Ty.RootPolyType (.FunctionGeneric "new.target".toList TypeId.ANY_TYPE),
      Ty.Interface "ImportMeta".toList none none,
      Ty.Constant (.Symbol "iterator".toList),
      Ty.Constant (.Symbol "asyncIterator".toList),
      Ty.Constant (.Symbol "hasInstance".toList),
      Ty.Constant (.Symbol "toPrimitive".toList),
      Ty.RootPolyType (.StructureGeneric "S".toList TypeId.STRING_TYPE),
      Ty.AliasTo TypeId.STRING_TYPE "Uppercase".toList (some [TypeId.STRING_GENERIC]),
      Ty.AliasTo TypeId.STRING_TYPE "Lowercase".toList (some [TypeId.STRING_GENERIC]),
      Ty.AliasTo TypeId.STRING_TYPE "Capitalize".toList (some [TypeId.STRING_GENERIC]),
      Ty.AliasTo TypeId.STRING_TYPE "Uncapitalize".toList (some [TypeId.STRING_GENERIC]),
      Ty.AliasTo TypeId.T_TYPE "NoInfer".toList (some [TypeId.T_TYPE]),
      Ty.AliasTo TypeId.T_TYPE "Readonly".toList (some [TypeId.T_TYPE]),
      Ty.RootPolyType (.MappedGeneric "NonOptional".toList TypeId.BOOLEAN_TYPE),
      Ty.RootPolyType (.MappedGeneric "Writable".toList TypeId.BOOLEAN_TYPE),
      Ty.RootPolyType (.StructureGeneric "T".toList TypeId.NUMBER_TYPE),
      Ty.AliasTo TypeId.NUMBER_TYPE "GreaterThan".toList (some [TypeId.NUMBER_GENERIC]),
      Ty.AliasTo TypeId.NUMBER_TYPE "LessThan".toList (some [TypeId.NUMBER_GENERIC]),
      Ty.AliasTo TypeId.NUMBER_TYPE "MultipleOf".toList (some [TypeId.NUMBER_GENERIC]),
      Ty.PartiallyAppliedGenerics TypeId.NOT_RESTRICTION
        (.ExplicitRestrictions [(TypeId.T_TYPE, (TypeId.NAN, SpanWithSource.NULL))]),
      Ty.And TypeId.NUMBER_TYPE TypeId.NOT_NOT_A_NUMBER,
      Ty.AliasTo TypeId.T_TYPE "Literal".toList (some [TypeId.T_TYPE]),
      Ty.AliasTo TypeId.T_TYPE "Exclusive".toList (some [TypeId.T_TYPE]),
      Ty.AliasTo TypeId.ANY_TYPE "Not".toList (some [TypeId.T_TYPE]),
      Ty.AliasTo TypeId.STRING_TYPE "CaseInsensitive".toList (some [TypeId.STRING_GENERIC]),
      Ty.RootPolyType (.Open TypeId.BOOLEAN_TYPE),
      Ty.RootPolyType (.Open TypeId.NUMBER_TYPE),
      Ty.Or TypeId.STRING_TYPE TypeId.NUMBER_TYPE ]
    [ (TypeId.ARRAY_TYPE, [(TypeId.T_TYPE, LookUpGeneric.NumberPropertyOfSelf)]) ]

/-- `count_of_types`. -/
def count_of_types (s : TypeStore) : Nat := s.types.length

/-- `get_type_by_id` — bounds-checked read; an invalid id is a panic in the
source, modelled as `none`. -/
def get_type_by_id (s : TypeStore) (id : TypeId) : Option Ty := s.types[id]?

/-- `register_type` — appends the descriptor and returns the fresh id.  The
source converts the length with `try_into().expect("too many types!")` into
a `u16`, so lengths above `65535` abort (modelled as `none`). -/
def register_type (s : TypeStore) (ty : Ty) : Option (TypeId × TypeStore) :=
  if s.types.length ≤ 65535 then
    some (s.types.length, TypeStore.mk (s.types ++ [ty]) s.lookup_generic_map)
  else none

/-- `new_constant_type` — reuses the reserved ids of the short-circuit table
and otherwise registers a fresh `Constant` descriptor.  The numeric guards
are IEEE `==` comparisons (so `-0.0` hits the `ZERO` case) and the NaN guard
is `is_nan`, in the order of the source's match arms. -/
def new_constant_type (s : TypeStore) (constant : Constant) : Option (TypeId × TypeStore) :=
  match constant with
  | .String str =>
      if str.isEmpty then some (TypeId.EMPTY_STRING, s)
      else s.register_type (.Constant (.String str))
  | .Number number =>
      if number.ieeeEq (.finite 0 false) then some (TypeId.ZERO, s)
      else if number.ieeeEq (.finite 1 false) then some (TypeId.ONE, s)
      else if number.ieeeEq .negInf then some (TypeId.NEG_INFINITY, s)
      else if number.ieeeEq .posInf then some (TypeId.INFINITY, s)
      else if number.is_nan then some (TypeId.NAN, s)
      else s.register_type (.Constant (.Number number))
  | .Boolean true => some (TypeId.TRUE, s)
  | .Boolean false => some (TypeId.FALSE, s)
  | c => s.register_type (.Constant c)

/-- `new_or_type` — the union smart constructor, with its checks in source
order: idempotence, the `{true, false}` completion to the open boolean,
`never` elimination on either side, flattening of a union on the left into
a right-leaning list, absorption against a union on the right, and finally
registration of a fresh `Or`.  The recursion of the source is run with
explicit `fuel` (`none` when it runs out, or when an id lookup would panic). -/
def new_or_type (fuel : Nat) (s : TypeStore) (lhs rhs : TypeId) :
    Option (TypeId × TypeStore) :=
  match fuel with
  | 0 => none
  | fuel + 1 =>
    if lhs = rhs then some (lhs, s)
    else if (lhs = TypeId.TRUE ∧ rhs = TypeId.FALSE) ∨
        (lhs = TypeId.FALSE ∧ rhs = TypeId.TRUE) then
      some (TypeId.OPEN_BOOLEAN_TYPE, s)
    else if lhs = TypeId.NEVER_TYPE then some (rhs, s)
    else if rhs = TypeId.NEVER_TYPE then some (lhs, s)
    else
      match s.get_type_by_id lhs with
      | none => none
      | some (.Or lhs_lhs lhs_rhs) => do
          let (rhs', s) ← new_or_type fuel s lhs_rhs rhs
          new_or_type fuel s lhs_lhs rhs'
      | some _ =>
        match s.get_type_by_id rhs with
        | none => none
        | some (.Or rhs_lhs rhs_rhs) =>
            if lhs = rhs_lhs then new_or_type fuel s lhs rhs_rhs
            else if lhs = rhs_rhs then new_or_type fuel s lhs rhs_lhs
            else s.register_type (.Or lhs rhs)
        | some _ => s.register_type (.Or lhs rhs)

/-- `new_or_type_from_iterator` — reduces a sequence with `new_or_type`,
defaulting to `NEVER_TYPE` for the empty sequence. -/
def new_or_type_from_iterator (fuel : Nat) (s : TypeStore) :
    List TypeId → Option (TypeId × TypeStore)
  | [] => some (TypeId.NEVER_TYPE, s)
  | t :: ts => go fuel s t ts
where
  go (fuel : Nat) (s : TypeStore) (acc : TypeId) :
      List TypeId → Option (TypeId × TypeStore)
    | [] => some (acc, s)
    | t :: ts => do
        let (acc, s) ← new_or_type fuel s acc t
        go fuel s acc ts

/-- `new_and_type` — the intersection smart constructor, in source order:
idempotence; both operand descriptors are read up front (out-of-range ids
panic); distributivity over a union on the left, then on the right; a
constant operand dominates (left first); right-associative flattening of an
`And` on the right; otherwise register a fresh `And`. -/
def new_and_type (fuel : Nat) (s : TypeStore) (lhs rhs : TypeId) :
    Option (TypeId × TypeStore) :=
  match fuel with
  | 0 => none
  | fuel + 1 =>
    if lhs = rhs then some (lhs, s)
    else
      match s.get_type_by_id lhs, s.get_type_by_id rhs with
      | some lhs_type, some rhs_type =>
        match lhs_type, rhs_type with
        | .Or or_lhs or_rhs, _ => do
            let (new_lhs, s) ← new_and_type fuel s or_lhs rhs
            let (new_rhs, s) ← new_and_type fuel s or_rhs rhs
            new_or_type fuel s new_lhs new_rhs
        | _, .Or or_lhs or_rhs => do
            let (new_lhs, s) ← new_and_type fuel s lhs or_lhs
            let (new_rhs, s) ← new_and_type fuel s lhs or_rhs
            new_or_type fuel s new_lhs new_rhs
        | .Constant _, _ => some (lhs, s)
        | _, .Constant _ => some (rhs, s)
        | _, .And rhs_lhs rhs_rhs => do
            let (lhs', s) ← new_and_type fuel s lhs rhs_lhs
            new_and_type fuel s lhs' rhs_rhs
        | _, _ => s.register_type (.And lhs rhs)
      | _, _ => none

/-- `new_conditional_type` — in source order: equal branches collapse; a
literally true/false condition selects a branch; the `(TRUE, FALSE)` branch
pair is the identity on the condition; a condition that is itself a
`ConditionalResult` with `truthy = FALSE`, `otherwise = TRUE` is a negation
and recurses with the branches swapped; otherwise a `ConditionalResult`
whose `result_union` is `new_or_type(truthy, otherwise)` is registered. -/
def new_conditional_type (fuel : Nat) (s : TypeStore)
    (condition truthy_result otherwise_result : TypeId) :
    Option (TypeId × TypeStore) :=
  match fuel with
  | 0 => none
  | fuel + 1 =>
    if truthy_result = otherwise_result then some (truthy_result, s)
    else if condition = TypeId.TRUE then some (truthy_result, s)
    else if condition = TypeId.FALSE then some (otherwise_result, s)
    else if truthy_result = TypeId.TRUE ∧ otherwise_result = TypeId.FALSE then
      some (condition, s)
    else
      match s.get_type_by_id condition with
      | none => none
      | some (.Constructor (.ConditionalResult condition' truthy' otherwise' _)) =>
          if truthy' = TypeId.FALSE ∧ otherwise' = TypeId.TRUE then
            new_conditional_type fuel s condition' otherwise_result truthy_result
          else do
            let (result_union, s) ← new_or_type fuel s truthy_result otherwise_result
            s.register_type (.Constructor (.ConditionalResult condition truthy_result
              otherwise_result result_union))
      | some _ => do
          let (result_union, s) ← new_or_type fuel s truthy_result otherwise_result
          s.register_type (.Constructor (.ConditionalResult condition truthy_result
            otherwise_result result_union))

/-- `new_logical_negation_type` — registers a `ConditionalResult` with the
branches `FALSE`/`TRUE` and `result_union = BOOLEAN_TYPE` (no constant
compilation). -/
def new_logical_negation_type (s : TypeStore) (condition : TypeId) :
    Option (TypeId × TypeStore) :=
  s.register_type (.Constructor (.ConditionalResult condition TypeId.FALSE TypeId.TRUE
    TypeId.BOOLEAN_TYPE))

/-- Replace the descriptor at `id` in place (the `&mut self.types[id]` of the
mutating operations). -/
def setDescriptor (s : TypeStore) (id : TypeId) (ty : Ty) : TypeStore :=
  TypeStore.mk (s.types.set id ty) s.lookup_generic_map

/-- `modify_interface_type_parameter_constraint` — replaces the `extends`
bound of a `StructureGeneric` root; any other variant hits `todo!` (a panic,
modelled as `none`), as does an out-of-range id (`&mut self.types[..]`). -/
def modify_interface_type_parameter_constraint (s : TypeStore) (ty : TypeId)
    (constraint : TypeId) : Option TypeStore :=
  match s.types[ty]? with
  | some (.RootPolyType (.StructureGeneric name _)) =>
      some (s.setDescriptor ty (.RootPolyType (.StructureGeneric name constraint)))
  | some _ => none
  | none => none

/-- `_set_inferred_constraint` — replaces `fixed_to` of a `Parameter` root;
the `else` arm is `panic!()` (modelled as `none`), which is also taken when
`get_mut` returns `None` for an out-of-range id. -/
def set_inferred_constraint (s : TypeStore) (ty : TypeId) (constraint : TypeId) :
    Option TypeStore :=
  match s.types[ty]? with
  | some (.RootPolyType (.Parameter _ variable_id)) =>
      some (s.setDescriptor ty (.RootPolyType (.Parameter constraint variable_id)))
  | _ => none

/-- `set_extends_on_interface` — overwrites the `extends` field of an
`Interface` descriptor whose `extends` is already `Some(_)`.  The source's
`if let` has no `else`: any other descriptor (an `Interface` with
`extends: None` included) leaves the store silently unchanged.  The only
panic is the index (`self.types[..]`) on an out-of-range id. -/
def set_extends_on_interface (s : TypeStore) (interface_type : TypeId)
    (extends' : TypeId) : Option TypeStore :=
  match s.types[interface_type]? with
  | some (.Interface name parameters (some _)) =>
      some (s.setDescriptor interface_type (.Interface name parameters (some extends')))
  | some _ => some s
  | none => none

/-- `update_alias` — overwrites the `to` field of an `AliasTo`; the `if let`
has no `else`, so any other variant leaves the store silently unchanged. -/
def update_alias (s : TypeStore) (alias_type : TypeId) (to' : TypeId) :
    Option TypeStore :=
  match s.types[alias_type]? with
  | some (.AliasTo _ name parameters) =>
      some (s.setDescriptor alias_type (.AliasTo to' name parameters))
  | some _ => some s
  | none => none

/-- `update_generic_extends` — overwrites the `extends` of a
`StructureGeneric` root; the `if let` has no `else`, so any other variant
leaves the store silently unchanged. -/
def update_generic_extends (s : TypeStore) (generic : TypeId) (to' : TypeId) :
    Option TypeStore :=
  match s.types[generic]? with
  | some (.RootPolyType (.StructureGeneric name _)) =>
      some (s.setDescriptor generic (.RootPolyType (.StructureGeneric name to')))
  | some _ => some s
  | none => none

/-- Sequential registration of a list of descriptors (for the dense-identifier
invariant about `k` successive `register_type` calls). -/
def register_list (s : TypeStore) : List Ty → Option TypeStore
  | [] => some s
  | ty :: tys => do
      let (_, s) ← s.register_type ty
      register_list s tys

end TypeStore

/-- `regress::Flags` — the flag record handed to the external regex parser. -/
structure RegressFlags where
  icase : Bool
  multiline : Bool
  dot_all : Bool
  unicode : Bool
  unicode_sets : Bool
  no_opt : Bool
deriving DecidableEq

/-- `regress::Flags::default()` — everything off. -/
def RegressFlags.default : RegressFlags :=
  RegressFlags.mk false false false false false false

/-- The flag-decoding loop of `RegExp::new`: `i`/`m`/`s`/`u`/`v` set the
corresponding regress options; `d`/`g`/`y` are recognized but mark the regex
flags-unsupported; any other character is `panic!("Unknown flag: ..")`,
modelled as `none`. -/
def parseFlagChars : List Char → RegressFlags → Bool → Option (RegressFlags × Bool)
  | [], flags, flags_unsupported => some (flags, flags_unsupported)
  | flag :: rest, flags, flags_unsupported =>
    if flag = 'd' then parseFlagChars rest flags true
    else if flag = 'g' then parseFlagChars rest flags true
    else if flag = 'i' then parseFlagChars rest { flags with icase := true } flags_unsupported
    else if flag = 'm' then parseFlagChars rest { flags with multiline := true } flags_unsupported
    else if flag = 's' then parseFlagChars rest { flags with dot_all := true } flags_unsupported
    else if flag = 'u' then parseFlagChars rest { flags with unicode := true } flags_unsupported
    else if flag = 'v' then parseFlagChars rest { flags with unicode_sets := true } flags_unsupported
    else if flag = 'y' then parseFlagChars rest flags true
    else none

/-- What `RegExp::new` reads off the regex compiled by the external `regress`
crate: the capturing-group count and the named-group table.  The compiled
matcher itself (`re`) is external state and is abstracted as the `find`
function supplied to the evaluation entry points. -/
structure CompiledRegex where
  groups : Nat
  named_group_indices : List (Str × Nat)
deriving DecidableEq

/-- `RegExp::new`.  `compile` abstracts the external
`regress::backends::try_parse`/`optimize`/`emit` pipeline: it either returns
the parse error's text or the compiled regex.  The canonical source string
`/pattern/flags` is reconstructed first; an unknown flag character panics
(`none`); a parser error is surfaced as `Except.error`; on success the total
group count is the compiled capturing-group count plus one and `used` starts
`false`. -/
def RegExp.new (compile : Str → RegressFlags → Except Str CompiledRegex)
    (pattern : Str) (flag_options : Option Str) : Option (Except Str RegExpData) :=
  let source : Str :=
    match flag_options with
    | some f => '/' :: (pattern ++ '/' :: f)
    | none => '/' :: (pattern ++ ['/'])
  match parseFlagChars (flag_options.getD []) RegressFlags.default false with
  | none => none
  | some (flags, flags_unsupported) =>
    match compile pattern flags with
    | .error e => some (.error e)
    | .ok compiled =>
        some (.ok (RegExpData.mk source (compiled.groups + 1)
          compiled.named_group_indices flags_unsupported false))

/-- `BinarySerializable::serialize` for `RegExp` writes the canonical source
string (string serialization and deserialization are inverse, so the byte
encoding is elided). -/
def RegExp.serialize (r : RegExpData) : Str := r.source

/-- Rust `str::rsplit_once(c)`: split at the last occurrence of `c`,
`none` when `c` does not occur. -/
def rsplitOnce (c : Char) : Str → Option (Str × Str)
  | [] => none
  | x :: xs =>
    match rsplitOnce c xs with
    | some (p, q) => some (x :: p, q)
    | none => if x = c then some ([], xs) else none

/-- `BinarySerializable::deserialize` for `RegExp`: split the text after the
leading `/` at the rightmost `/`, treat empty flags as absent, and rebuild
through the constructor.  Both `unwrap`s (no `/` to split at; rebuild
failure, panic included) are modelled as `none`. -/
def RegExp.deserialize (compile : Str → RegressFlags → Except Str CompiledRegex)
    (source : Str) : Option RegExpData :=
  match rsplitOnce '/' (source.drop 1) with
  | none => none
  | some (pattern, flags) =>
    let flag_options := if flags.isEmpty then none else some flags
    match RegExp.new compile pattern flag_options with
    | some (.ok r) => some r
    | _ => none

/-- The result of `regress::Regex::find` on a string: the overall match
start, the positional group ranges in order (group `0` is the whole match)
and the named-group ranges in iteration order. -/
structure MatchData where
  start : Nat
  groups : List (Option (Nat × Nat))
  namedGroups : List (Str × Option (Nat × Nat))
deriving DecidableEq

/-- Rust's `pattern[range]` slice on the modelled string. -/
def sliceRange (s : Str) (r : Nat × Nat) : Str := (s.drop r.1).take (r.2 - r.1)

/-- Modelled from the spec: the shape of one object built by the
`ObjectBuilder` of `features/objects.rs` (a file not under `src/`): its
prototype and the properties appended to it, recorded in the environment
info (§4.5 builds an anonymous object with a prototype and properties). -/
structure ObjectRecord where
  prototype : Option TypeId
  properties : List (PropKey × TypeId)
deriving DecidableEq

/-- Modelled from the spec: the slice of `environment.info` the
regular-expression evaluator writes — the objects built so far. -/
structure Env where
  objects : List (TypeId × ObjectRecord)
deriving DecidableEq

/-- Modelled from the spec: `ObjectBuilder::new(prototype, types, ..)` —
registers a fresh object type and records it, with its prototype and an
empty property list, in the environment info. -/
def ObjectBuilder.new (prototype : Option TypeId) (s : TypeStore) (env : Env) :
    Option (TypeId × TypeStore × Env) := do
  let (id, s) ← s.register_type (.Object .RealDeal)
  some (id, s, Env.mk (env.objects ++ [(id, ObjectRecord.mk prototype [])]))

/-- Modelled from the spec: `ObjectBuilder::append` — appends one property
to the named object's record in the environment info. -/
def Env.appendProperty (env : Env) (obj : TypeId) (key : PropKey) (value : TypeId) : Env :=
  Env.mk (env.objects.map (fun e =>
    if e.1 = obj then (e.1, ObjectRecord.mk e.2.prototype (e.2.properties ++ [(key, value)]))
    else e))

/-- Look up an object's record in the environment info. -/
def Env.find (env : Env) (obj : TypeId) : Option ObjectRecord :=
  (env.objects.find? (fun e => e.1 = obj)).map Prod.snd

/-- The positional-group loop of `exec_constant`
(`for (idx, group) in match_.groups().enumerate()`): a matched range is
sliced out of the input into a string constant keyed by
`PropertyKey::from_usize(idx)`; an unmatched group is `todo!()` — a panic,
modelled as `none`. -/
def appendPositionalGroups (pattern : Str) (obj : TypeId) :
    List (Option (Nat × Nat)) → Nat → TypeStore → Env → Option (TypeStore × Env)
  | [], _, s, env => some (s, env)
  | some range :: rest, idx, s, env => do
      let (value, s) ← s.new_constant_type (.String (sliceRange pattern range))
      appendPositionalGroups pattern obj rest (idx + 1) s
        (env.appendProperty obj (.num idx) value)
  | none :: _, _, _, _ => none

/-- The named-group loop of `exec_constant`
(`for (name, group) in match_.named_groups()`): same slicing rule, string
keys; an unmatched named group is `todo!()`, modelled as `none`. -/
def appendNamedGroups (pattern : Str) (obj : TypeId) :
    List (Str × Option (Nat × Nat)) → TypeStore → Env → Option (TypeStore × Env)
  | [], s, env => some (s, env)
  | (name, some range) :: rest, s, env => do
      let (value, s) ← s.new_constant_type (.String (sliceRange pattern range))
      appendNamedGroups pattern obj rest s (env.appendProperty obj (.str name) value)
  | (_, none) :: _, _, _ => none

/-- `RegExp::exec_constant` — concrete evaluation against a known string.
`find` abstracts the compiled external matcher `self.re`.  In source order:
build an `Array`-prototyped object and append `input`; with no match the
overall result is the null type; with a match append `index` (the number
constant of the match start), the sliced positional groups, the
null-prototyped `groups` object holding the sliced named groups, and
`length` (the number constant of the stored group count). -/
def RegExp.exec_constant (self : RegExpData) (find : Str → Option MatchData)
    (pattern : Str) (pattern_type_id : TypeId) (s : TypeStore) (env : Env) :
    Option (TypeId × TypeStore × Env) := do
  let (obj, s, env) ← ObjectBuilder.new (some TypeId.ARRAY_TYPE) s env
  let env := env.appendProperty obj (.str "input".toList) pattern_type_id
  match find pattern with
  | some m => do
      let (index, s) ← s.new_constant_type (.Number (.ofNat m.start))
      let env := env.appendProperty obj (.str "index".toList) index
      let (s, env) ← appendPositionalGroups pattern obj m.groups 0 s env
      let (named_groups, s, env) ← ObjectBuilder.new (some TypeId.NULL_TYPE) s env
      let (s, env) ← appendNamedGroups pattern named_groups m.namedGroups s env
      let env := env.appendProperty obj (.str "groups".toList) named_groups
      let (length, s) ← s.new_constant_type (.Number (.ofNat self.groups))
      let env := env.appendProperty obj (.str "length".toList) length
      some (obj, s, env)
  | none => some (TypeId.NULL_TYPE, s, env)

/-- The `for idx in 0..self.groups` loop of `exec_variable`: numeric keys
mapped to the string type placeholder. -/
def appendVariableGroups (obj : TypeId) : List Nat → Env → Env
  | [], env => env
  | idx :: rest, env =>
      appendVariableGroups obj rest (env.appendProperty obj (.num idx) TypeId.STRING_TYPE)

/-- The named-group loop of `exec_variable`: string keys mapped to the
string type placeholder. -/
def appendVariableNamedGroups (obj : TypeId) : List (Str × Nat) → Env → Env
  | [], env => env
  | (name, _) :: rest, env =>
      appendVariableNamedGroups obj rest (env.appendProperty obj (.str name) TypeId.STRING_TYPE)

/-- `RegExp::exec_variable` — shape-only symbolic evaluation: `STRING_TYPE`
for `input` and every group, `NUMBER_TYPE` for `index`, the concrete
group-count constant for `length`, and the overall result is the union of
the object with the null type (built by `new_or_type`, hence the fuel). -/
def RegExp.exec_variable (self : RegExpData) (fuel : Nat) (s : TypeStore) (env : Env) :
    Option (TypeId × TypeStore × Env) := do
  let (obj, s, env) ← ObjectBuilder.new (some TypeId.ARRAY_TYPE) s env
  let env := env.appendProperty obj (.str "input".toList) TypeId.STRING_TYPE
  let env := env.appendProperty obj (.str "index".toList) TypeId.NUMBER_TYPE
  let env := appendVariableGroups obj (List.range self.groups) env
  let (named_groups, s, env) ← ObjectBuilder.new (some TypeId.NULL_TYPE) s env
  let env := appendVariableNamedGroups named_groups self.named_group_indices env
  let env := env.appendProperty obj (.str "groups".toList) named_groups
  let (length, s) ← s.new_constant_type (.Number (.ofNat self.groups))
  let env := env.appendProperty obj (.str "length".toList) length
  let (result, s) ← TypeStore.new_or_type fuel s obj TypeId.NULL_TYPE
  some (result, s, env)

/-- `RegExp::exec` — dispatch: the operand descriptor is read first (an
invalid id panics); fully supported flags with a constant-string operand
evaluate concretely, anything else symbolically. -/
def RegExp.exec (self : RegExpData) (find : Str → Option MatchData) (fuel : Nat)
    (pattern_type_id : TypeId) (s : TypeStore) (env : Env) :
    Option (TypeId × TypeStore × Env) :=
  match s.get_type_by_id pattern_type_id with
  | none => none
  | some pattern_type =>
    match self.flags_unsupported, pattern_type with
    | false, .Constant (.String pattern) =>
        RegExp.exec_constant self find pattern pattern_type_id s env
    | _, _ => RegExp.exec_variable self fuel s env

/-! ## Derived predicates used to state the claims -/

/-- Membership in the constant short-circuit table of `new_constant_type`:
the constants that resolve to reserved ids instead of a fresh registration. -/
def Constant.isShortCircuit : Constant → Bool
  | .String s => s.isEmpty
  | .Number n =>
      n.ieeeEq (.finite 0 false) || n.ieeeEq (.finite 1 false) ||
      n.ieeeEq .negInf || n.ieeeEq .posInf || n.is_nan
  | .Boolean _ => true
  | _ => false

/-- The descriptor is a union (`Type::Or`). -/
def Ty.isOrVariant : Ty → Bool
  | .Or _ _ => true
  | _ => false

/-- The descriptor is a constant (`Type::Constant`). -/
def Ty.isConstantVariant : Ty → Bool
  | .Constant _ => true
  | _ => false

/-- The descriptor is a `RootPolyType(StructureGeneric ..)` root. -/
def Ty.isStructureGenericRoot : Ty → Bool
  | .RootPolyType (.StructureGeneric _ _) => true
  | _ => false

/-- The descriptor is a `RootPolyType(Parameter ..)` root. -/
def Ty.isParameterRoot : Ty → Bool
  | .RootPolyType (.Parameter _ _) => true
  | _ => false

/-- The descriptor is an `Interface` whose `extends` is `Some(_)` — the only
shape `set_extends_on_interface` mutates. -/
def Ty.isInterfaceWithSomeExtends : Ty → Bool
  | .Interface _ _ (some _) => true
  | _ => false

/-- The descriptor is an `AliasTo`. -/
def Ty.isAliasVariant : Ty → Bool
  | .AliasTo _ _ _ => true
  | _ => false

/-- The descriptor is a `ConditionalResult` with branches `FALSE`/`TRUE` —
the negation shape that `new_conditional_type` unswaps. -/
def Ty.isNegationConditional : Ty → Bool
  | .Constructor (.ConditionalResult _ t o _) => t = TypeId.FALSE && o = TypeId.TRUE
  | _ => false

/-- Both association orders of C3, as they would be executed: the left run
computes `new_or_type(new_or_type(a, b), c)`. -/
def orAssocLeftRun (fuel : Nat) (s : TypeStore) (a b c : TypeId) :
    Option (TypeId × TypeStore) := do
  let (x, s) ← TypeStore.new_or_type fuel s a b
  TypeStore.new_or_type fuel s x c

/-- The right run computes `new_or_type(a, new_or_type(b, c))`. -/
def orAssocRightRun (fuel : Nat) (s : TypeStore) (a b c : TypeId) :
    Option (TypeId × TypeStore) := do
  let (y, s) ← TypeStore.new_or_type fuel s b c
  TypeStore.new_or_type fuel s a y

/-! ## Concrete stores used by witnesses and counterexamples -/

/-- The default store with one interface declared `extends NUMBER_TYPE`
(id `57`) and one declared without `extends` (id `58`). -/
def demoInterfaceStore : TypeStore :=
  TypeStore.mk
    (TypeStore.default.types ++
      [Ty.Interface "I".toList none (some TypeId.NUMBER_TYPE),
        Ty.Interface "J".toList none none])
    TypeStore.default.lookup_generic_map

/-- The default store with three fresh interfaces `A`, `B`, `C` registered
at ids `57`, `58`, `59` — distinct, non-never, non-constant, non-union ids
for exercising the union constructor. -/
def demoAbcStore : TypeStore :=
  TypeStore.mk
    (TypeStore.default.types ++
      [Ty.Interface "A".toList none none,
        Ty.Interface "B".toList none none,
        Ty.Interface "C".toList none none])
    TypeStore.default.lookup_generic_map

/-- The default store with a negation-shaped conditional
(`ConditionalResult` with branches `FALSE`/`TRUE` over the open boolean)
registered at id `57`. -/
def demoNegationStore : TypeStore :=
  TypeStore.mk
    (TypeStore.default.types ++
      [Ty.Constructor (.ConditionalResult TypeId.OPEN_BOOLEAN_TYPE TypeId.FALSE TypeId.TRUE
        TypeId.BOOLEAN_TYPE)])
    TypeStore.default.lookup_generic_map

/-- A concrete stand-in for the external regex compiler: two capturing
groups, one of them named `year`.  (The round-trip property holds for every
compiler function; this one is used by the witnesses.) -/
def demoCompile : Str → RegressFlags → Except Str CompiledRegex :=
  fun _ _ => .ok (CompiledRegex.mk 2 [("year".toList, 1)])

/-- The `RegExp` data produced by `RegExp::new` for pattern `ab` with flags
`i` under `demoCompile`. -/
def demoRegExpRoundTrip : RegExpData :=
  RegExpData.mk "/ab/i".toList 3 [("year".toList, 1)] false false

/-- The compiled form of `^(?<year>\d{4})-(\d{2})$` with no flags: two
capturing groups (stored group count `2 + 1`), one named `year` at index 1,
all flags supported. -/
def demoYearRegExp : RegExpData :=
  RegExpData.mk "/^(?<year>\\d{4})-(\\d{2})$/".toList 3 [("year".toList, 1)] false false

/-- The external matcher's behaviour for `^(?<year>\d{4})-(\d{2})$` on the
inputs used here: `"2024-07"` matches at 0 with group 0 = `[0,7)`,
group 1 (`year`) = `[0,4)`, group 2 = `[5,7)`; everything else fails. -/
def demoYearFind : Str → Option MatchData := fun s =>
  if s = "2024-07".toList then
    some (MatchData.mk 0 [some (0, 7), some (0, 4), some (5, 7)]
      [("year".toList, some (0, 4))])
  else none

/-- The default store with the string constant `"2024-07"` at id `57`. -/
def demoExecStore : TypeStore :=
  TypeStore.mk (TypeStore.default.types ++ [Ty.Constant (.String "2024-07".toList)])
    TypeStore.default.lookup_generic_map

/-- The default store with the string constant `"late"` (which the year
regex does not match) at id `57`. -/
def demoNoMatchStore : TypeStore :=
  TypeStore.mk (TypeStore.default.types ++ [Ty.Constant (.String "late".toList)])
    TypeStore.default.lookup_generic_map

/-- The compiled form of `(a)(b)?` with no flags: two capturing groups,
none named. -/
def demoOptRegExp : RegExpData :=
  RegExpData.mk "/(a)(b)?/".toList 3 [] false false

/-- The external matcher's behaviour for `(a)(b)?` on `"a"`: a match at 0
whose optional second capturing group does not participate. -/
def demoOptFind : Str → Option MatchData := fun s =>
  if s = "a".toList then
    some (MatchData.mk 0 [some (0, 1), some (0, 1), none] [])
  else none

/-- The default store with the string constant `"a"` at id `57`. -/
def demoOptStore : TypeStore :=
  TypeStore.mk (TypeStore.default.types ++ [Ty.Constant (.String "a".toList)])
    TypeStore.default.lookup_generic_map

/-! ## Shared lemmas about the store primitives -/

namespace TypeStore

theorem register_type_ok (s : TypeStore) (ty : Ty) (h : s.types.length ≤ 65535) :
    s.register_type ty =
      some (s.count_of_types, TypeStore.mk (s.types ++ [ty]) s.lookup_generic_map) := by
  simp [register_type, count_of_types, h]

theorem register_type_some {s : TypeStore} {ty : Ty} {id : TypeId} {s' : TypeStore}
    (h : s.register_type ty = some (id, s')) :
    id = s.count_of_types ∧
      s' = TypeStore.mk (s.types ++ [ty]) s.lookup_generic_map ∧
      s.types.length ≤ 65535 := by
  unfold register_type at h
  split at h
  · simp only [Option.some.injEq, Prod.mk.injEq] at h
    exact ⟨h.1.symm, h.2.symm, by assumption⟩
  · exact absurd h (by simp)

theorem count_after_register {s : TypeStore} {ty : Ty} {id : TypeId} {s' : TypeStore}
    (h : s.register_type ty = some (id, s')) :
    s'.count_of_types = s.count_of_types + 1 := by
  obtain ⟨-, h2, -⟩ := register_type_some h
  subst h2
  simp [count_of_types]

theorem get_append_lt (s : TypeStore) (ty : Ty) (m : List (TypeId × List (TypeId × LookUpGeneric)))
    (i : TypeId) (h : i < s.types.length) :
    (TypeStore.mk (s.types ++ [ty]) m).get_type_by_id i = s.get_type_by_id i := by
  show (s.types ++ [ty])[i]? = s.types[i]?
  rw [List.getElem?_append, if_pos h]

theorem get_append_self (s : TypeStore) (ty : Ty)
    (m : List (TypeId × List (TypeId × LookUpGeneric))) :
    (TypeStore.mk (s.types ++ [ty]) m).get_type_by_id s.types.length = some ty := by
  simp [get_type_by_id]

theorem get_lt_count {s : TypeStore} {i : TypeId} {ty : Ty}
    (h : s.get_type_by_id i = some ty) : i < s.count_of_types := by
  by_contra hc
  push_neg at hc
  simp only [count_of_types] at hc
  rw [get_type_by_id, List.getElem?_eq_none hc] at h
  exact absurd h (by simp)

theorem register_list_count {tys : List Ty} :
    ∀ {s s' : TypeStore}, TypeStore.register_list s tys = some s' →
      s'.count_of_types = s.count_of_types + tys.length := by
  induction tys with
  | nil =>
      intro s s' h
      simp only [register_list, Option.some.injEq] at h
      subst h
      simp
  | cons ty tys ih =>
      intro s s' h
      simp only [register_list] at h
      cases hreg : s.register_type ty with
      | none => rw [hreg] at h; exact absurd h (by simp)
      | some p =>
          obtain ⟨id0, s0⟩ := p
          rw [hreg] at h
          have h2 : TypeStore.register_list s0 tys = some s' := h
          have hcount := count_after_register hreg
          have := ih h2
          simp only [List.length_cons]
          omega

end TypeStore

/-! ## Claim theorems -/

/-- C1: identifiers are dense and stable — immediately after default
construction the store's count equals the published built-in count (the
initialization assertion holds); every successful `register_type` returns
the id equal to the count before the call and increments the count by one
(ids are contiguous and never reused); hence after any `k` successful calls
the count equals `builtin_count + k`. -/
theorem identifiers_dense_and_stable :
    TypeStore.default.count_of_types = TypeId.INTERNAL_TYPE_COUNT ∧
    (∀ (s : TypeStore) (ty : Ty) (id : TypeId) (s' : TypeStore),
      s.register_type ty = some (id, s') →
      id = s.count_of_types ∧ s'.count_of_types = s.count_of_types + 1) ∧
    (∀ (tys : List Ty) (s' : TypeStore),
      TypeStore.register_list TypeStore.default tys = some s' →
      s'.count_of_types = TypeId.INTERNAL_TYPE_COUNT + tys.length) := by
  refine ⟨rfl, ?_, ?_⟩
  · intro s ty id s' h
    exact ⟨(TypeStore.register_type_some h).1, TypeStore.count_after_register h⟩
  · intro tys s' h
    exact TypeStore.register_list_count h

/-- Witness for C1 at a concrete input: registering one interface in the
default store returns id `57` (the count before the call) and a store with
count `58`. -/
theorem identifiers_dense_and_stable_witness :
    TypeStore.default.register_type (Ty.Interface "A".toList none none) =
      some (57, TypeStore.mk
        (TypeStore.default.types ++ [Ty.Interface "A".toList none none])
        TypeStore.default.lookup_generic_map) ∧
    (57 = TypeStore.default.count_of_types ∧
      (TypeStore.mk (TypeStore.default.types ++ [Ty.Interface "A".toList none none])
        TypeStore.default.lookup_generic_map).count_of_types =
        TypeStore.default.count_of_types + 1) :=
  ⟨rfl, identifiers_dense_and_stable.2.1 TypeStore.default _ 57 _ rfl⟩

/-- C2: every constant in the short-circuit table resolves to its reserved
built-in id with the store unchanged — the empty string to `EMPTY_STRING`;
numeric `0.0` and `-0.0` (IEEE `==`) both to `ZERO`; `1.0` to `ONE`;
`-Infinity`/`Infinity` to their reserved ids; NaN (detected by `is_nan`,
which `==` could never do) to `NAN`; the booleans to `TRUE`/`FALSE` — and
every constant outside the table registers a fresh `Constant` descriptor. -/
theorem constant_short_circuit_table :
    (∀ s : TypeStore, s.new_constant_type (.String []) = some (TypeId.EMPTY_STRING, s)) ∧
    (∀ (s : TypeStore) (negZero : Bool),
      s.new_constant_type (.Number (.finite 0 negZero)) = some (TypeId.ZERO, s)) ∧
    (∀ (s : TypeStore) (negZero : Bool),
      s.new_constant_type (.Number (.finite 1 negZero)) = some (TypeId.ONE, s)) ∧
    (∀ s : TypeStore, s.new_constant_type (.Number .negInf) = some (TypeId.NEG_INFINITY, s)) ∧
    (∀ s : TypeStore, s.new_constant_type (.Number .posInf) = some (TypeId.INFINITY, s)) ∧
    (∀ s : TypeStore, s.new_constant_type (.Number .nan) = some (TypeId.NAN, s)) ∧
    (∀ s : TypeStore, s.new_constant_type (.Boolean true) = some (TypeId.TRUE, s)) ∧
    (∀ s : TypeStore, s.new_constant_type (.Boolean false) = some (TypeId.FALSE, s)) ∧
    (∀ (s : TypeStore) (c : Constant), c.isShortCircuit = false →
      s.new_constant_type c = s.register_type (.Constant c)) := by
  refine ⟨fun s => rfl, fun s b => rfl, fun s b => rfl, fun s => rfl, fun s => rfl,
    fun s => rfl, fun s => rfl, fun s => rfl, ?_⟩
  intro s c h
  cases c with
  | String str =>
      simp only [Constant.isShortCircuit] at h
      simp [TypeStore.new_constant_type, h]
  | Number n =>
      simp only [Constant.isShortCircuit, Bool.or_eq_false_iff] at h
      obtain ⟨⟨⟨⟨h0, h1⟩, h2⟩, h3⟩, h4⟩ := h
      simp [TypeStore.new_constant_type, h0, h1, h2, h3, h4]
  | Boolean b => simp [Constant.isShortCircuit] at h
  | Symbol key => rfl
  | Undefined => rfl

/-- Witness for C2 at a concrete input: `5.0` is outside the short-circuit
table and registers a fresh `Constant` descriptor. -/
theorem constant_short_circuit_table_witness :
    (Constant.Number (.finite 5 false)).isShortCircuit = false ∧
    TypeStore.default.new_constant_type (.Number (.finite 5 false)) =
      TypeStore.default.register_type (.Constant (.Number (.finite 5 false))) :=
  ⟨by decide,
    constant_short_circuit_table.2.2.2.2.2.2.2.2 TypeStore.default
      (.Number (.finite 5 false)) (by decide)⟩

/-- C9: `set_extends_on_interface(I, X)` on an `Interface` whose `extends`
is `Some(Y)` overwrites that field, so reading `I` afterwards yields the
same interface with `extends = Some(X)`; on an `Interface` with
`extends = None` it is a no-op; in both cases the variant, every other
field, every other descriptor, and the store's count are unchanged. -/
theorem set_extends_on_interface_spec :
    (∀ (s : TypeStore) (I X Y : TypeId) (name : Str) (params : Option (List TypeId)),
      s.get_type_by_id I = some (.Interface name params (some Y)) →
      s.set_extends_on_interface I X =
        some (s.setDescriptor I (.Interface name params (some X))) ∧
      (s.setDescriptor I (.Interface name params (some X))).get_type_by_id I =
        some (.Interface name params (some X)) ∧
      (∀ j, j ≠ I →
        (s.setDescriptor I (.Interface name params (some X))).get_type_by_id j =
          s.get_type_by_id j) ∧
      (s.setDescriptor I (.Interface name params (some X))).count_of_types =
        s.count_of_types) ∧
    (∀ (s : TypeStore) (I X : TypeId) (name : Str) (params : Option (List TypeId)),
      s.get_type_by_id I = some (.Interface name params none) →
      s.set_extends_on_interface I X = some s) := by
  constructor
  · intro s I X Y name params h
    have hlt : I < s.types.length := TypeStore.get_lt_count h
    refine ⟨?_, ?_, ?_, ?_⟩
    · unfold TypeStore.set_extends_on_interface
      rw [show s.types[I]? = some (.Interface name params (some Y)) from h]
    · simp only [TypeStore.setDescriptor, TypeStore.get_type_by_id]
      exact List.getElem?_set_eq_of_lt _ hlt
    · intro j hj
      simp only [TypeStore.setDescriptor, TypeStore.get_type_by_id]
      exact List.getElem?_set_ne (fun e => hj e.symm)
    · simp [TypeStore.setDescriptor, TypeStore.count_of_types]
  · intro s I X name params h
    unfold TypeStore.set_extends_on_interface
    rw [show s.types[I]? = some (.Interface name params none) from h]

/-- Witness for C9 at a concrete input: in `demoInterfaceStore`, overwriting
the `extends` of interface `57` (declared `extends NUMBER_TYPE`) makes
reading it yield `extends = Some(STRING_TYPE)`, and the call on interface
`58` (declared without `extends`) is a no-op. -/
theorem set_extends_on_interface_spec_witness :
    demoInterfaceStore.get_type_by_id 57 =
      some (.Interface "I".toList none (some TypeId.NUMBER_TYPE)) ∧
    demoInterfaceStore.set_extends_on_interface 57 TypeId.STRING_TYPE =
      some (demoInterfaceStore.setDescriptor 57
        (.Interface "I".toList none (some TypeId.STRING_TYPE))) ∧
    (demoInterfaceStore.setDescriptor 57
      (.Interface "I".toList none (some TypeId.STRING_TYPE))).get_type_by_id 57 =
      some (.Interface "I".toList none (some TypeId.STRING_TYPE)) ∧
    (demoInterfaceStore.setDescriptor 57
      (.Interface "I".toList none (some TypeId.STRING_TYPE))).count_of_types =
      demoInterfaceStore.count_of_types ∧
    demoInterfaceStore.get_type_by_id 58 = some (.Interface "J".toList none none) ∧
    demoInterfaceStore.set_extends_on_interface 58 TypeId.STRING_TYPE =
      some demoInterfaceStore :=
  ⟨rfl,
    (set_extends_on_interface_spec.1 demoInterfaceStore 57 TypeId.STRING_TYPE
      TypeId.NUMBER_TYPE "I".toList none rfl).1,
    (set_extends_on_interface_spec.1 demoInterfaceStore 57 TypeId.STRING_TYPE
      TypeId.NUMBER_TYPE "I".toList none rfl).2.1,
    (set_extends_on_interface_spec.1 demoInterfaceStore 57 TypeId.STRING_TYPE
      TypeId.NUMBER_TYPE "I".toList none rfl).2.2.2,
    rfl,
    set_extends_on_interface_spec.2 demoInterfaceStore 58 TypeId.STRING_TYPE
      "J".toList none rfl⟩

/-- C8 counterexample: `set_extends_on_interface` called on the id of a
`Class` descriptor (`boolean`, a mismatched variant) returns normally with
the store unchanged, instead of terminating execution fatally. -/
theorem mutation_mismatch_counterexample :
    TypeStore.default.get_type_by_id TypeId.BOOLEAN_TYPE =
      some (Ty.Class "boolean".toList none) ∧
    TypeStore.default.set_extends_on_interface TypeId.BOOLEAN_TYPE TypeId.NUMBER_TYPE =
      some TypeStore.default :=
  ⟨rfl, rfl⟩

/-- C8 (amended): on a descriptor whose variant does not match the expected
one, `modify_interface_type_parameter_constraint` and
`set_inferred_constraint` terminate fatally (`todo!`/`panic!`), while
`set_extends_on_interface`, `update_alias` and `update_generic_extends`
silently leave the store unchanged. -/
theorem mutation_mismatch_behavior :
    (∀ (s : TypeStore) (id c : TypeId) (ty : Ty), s.get_type_by_id id = some ty →
      ty.isStructureGenericRoot = false →
      s.modify_interface_type_parameter_constraint id c = none) ∧
    (∀ (s : TypeStore) (id c : TypeId) (ty : Ty), s.get_type_by_id id = some ty →
      ty.isParameterRoot = false →
      s.set_inferred_constraint id c = none) ∧
    (∀ (s : TypeStore) (id x : TypeId) (ty : Ty), s.get_type_by_id id = some ty →
      ty.isInterfaceWithSomeExtends = false →
      s.set_extends_on_interface id x = some s) ∧
    (∀ (s : TypeStore) (id x : TypeId) (ty : Ty), s.get_type_by_id id = some ty →
      ty.isAliasVariant = false →
      s.update_alias id x = some s) ∧
    (∀ (s : TypeStore) (id x : TypeId) (ty : Ty), s.get_type_by_id id = some ty →
      ty.isStructureGenericRoot = false →
      s.update_generic_extends id x = some s) := by
  refine ⟨?_, ?_, ?_, ?_, ?_⟩
  · intro s id c ty h hvar
    unfold TypeStore.modify_interface_type_parameter_constraint
    rw [show s.types[id]? = some ty from h]
    cases ty <;> try rfl
    rename_i nature
    cases nature <;> try rfl
    simp [Ty.isStructureGenericRoot] at hvar
  · intro s id c ty h hvar
    unfold TypeStore.set_inferred_constraint
    rw [show s.types[id]? = some ty from h]
    cases ty <;> try rfl
    rename_i nature
    cases nature <;> try rfl
    simp [Ty.isParameterRoot] at hvar
  · intro s id x ty h hvar
    unfold TypeStore.set_extends_on_interface
    rw [show s.types[id]? = some ty from h]
    cases ty <;> try rfl
    rename_i name params ext
    cases ext <;> try rfl
    simp [Ty.isInterfaceWithSomeExtends] at hvar
  · intro s id x ty h hvar
    unfold TypeStore.update_alias
    rw [show s.types[id]? = some ty from h]
    cases ty <;> try rfl
    simp [Ty.isAliasVariant] at hvar
  · intro s id x ty h hvar
    unfold TypeStore.update_generic_extends
    rw [show s.types[id]? = some ty from h]
    cases ty <;> try rfl
    rename_i nature
    cases nature <;> try rfl
    simp [Ty.isStructureGenericRoot] at hvar

/-- Witness for the amended C8 at concrete inputs: on the `Class` descriptor
`boolean` the two strict operations abort while the three lenient ones
return the unchanged store (`set_extends_on_interface` exercised on the
`Interface` `never`, whose `extends` is `None`). -/
theorem mutation_mismatch_behavior_witness :
    TypeStore.default.modify_interface_type_parameter_constraint
      TypeId.BOOLEAN_TYPE TypeId.NUMBER_TYPE = none ∧
    TypeStore.default.set_inferred_constraint
      TypeId.BOOLEAN_TYPE TypeId.NUMBER_TYPE = none ∧
    TypeStore.default.set_extends_on_interface
      TypeId.NEVER_TYPE TypeId.NUMBER_TYPE = some TypeStore.default ∧
    TypeStore.default.update_alias
      TypeId.BOOLEAN_TYPE TypeId.NUMBER_TYPE = some TypeStore.default ∧
    TypeStore.default.update_generic_extends
      TypeId.BOOLEAN_TYPE TypeId.NUMBER_TYPE = some TypeStore.default :=
  ⟨mutation_mismatch_behavior.1 TypeStore.default TypeId.BOOLEAN_TYPE TypeId.NUMBER_TYPE
      (Ty.Class "boolean".toList none) rfl rfl,
    mutation_mismatch_behavior.2.1 TypeStore.default TypeId.BOOLEAN_TYPE TypeId.NUMBER_TYPE
      (Ty.Class "boolean".toList none) rfl rfl,
    mutation_mismatch_behavior.2.2.1 TypeStore.default TypeId.NEVER_TYPE TypeId.NUMBER_TYPE
      (Ty.Interface "never".toList none none) rfl rfl,
    mutation_mismatch_behavior.2.2.2.1 TypeStore.default TypeId.BOOLEAN_TYPE TypeId.NUMBER_TYPE
      (Ty.Class "boolean".toList none) rfl rfl,
    mutation_mismatch_behavior.2.2.2.2 TypeStore.default TypeId.BOOLEAN_TYPE TypeId.NUMBER_TYPE
      (Ty.Class "boolean".toList none) rfl rfl⟩

/-- C5: `new_conditional_type` collapses in order — equal branches return
that branch; a `TRUE` (resp. `FALSE`) condition returns the truthy (resp.
otherwise) result; the branch pair `(TRUE, FALSE)` returns the condition
itself; a condition that is a `ConditionalResult` with `truthy = FALSE`,
`otherwise = TRUE` recurses on its inner condition with the two results
swapped; otherwise it interns a `ConditionalResult` whose `result_union` is
`new_or_type(truthy, otherwise)`. -/
theorem conditional_collapse :
    (∀ (fuel : Nat) (s : TypeStore) (c t : TypeId),
      TypeStore.new_conditional_type (fuel + 1) s c t t = some (t, s)) ∧
    (∀ (fuel : Nat) (s : TypeStore) (t f : TypeId),
      TypeStore.new_conditional_type (fuel + 1) s TypeId.TRUE t f = some (t, s)) ∧
    (∀ (fuel : Nat) (s : TypeStore) (t f : TypeId),
      TypeStore.new_conditional_type (fuel + 1) s TypeId.FALSE t f = some (f, s)) ∧
    (∀ (fuel : Nat) (s : TypeStore) (c : TypeId),
      TypeStore.new_conditional_type (fuel + 1) s c TypeId.TRUE TypeId.FALSE = some (c, s)) ∧
    (∀ (fuel : Nat) (s : TypeStore) (c t f c' ru : TypeId),
      t ≠ f → c ≠ TypeId.TRUE → c ≠ TypeId.FALSE →
      ¬(t = TypeId.TRUE ∧ f = TypeId.FALSE) →
      s.get_type_by_id c =
        some (.Constructor (.ConditionalResult c' TypeId.FALSE TypeId.TRUE ru)) →
      TypeStore.new_conditional_type (fuel + 1) s c t f =
        TypeStore.new_conditional_type fuel s c' f t) ∧
    (∀ (fuel : Nat) (s : TypeStore) (c t f : TypeId) (ty : Ty),
      t ≠ f → c ≠ TypeId.TRUE → c ≠ TypeId.FALSE →
      ¬(t = TypeId.TRUE ∧ f = TypeId.FALSE) →
      s.get_type_by_id c = some ty → ty.isNegationConditional = false →
      TypeStore.new_conditional_type (fuel + 1) s c t f =
        (do
          let (result_union, s') ← TypeStore.new_or_type fuel s t f
          s'.register_type (.Constructor (.ConditionalResult c t f result_union)))) := by
  refine ⟨?_, ?_, ?_, ?_, ?_, ?_⟩
  · intro fuel s c t
    simp [TypeStore.new_conditional_type]
  · intro fuel s t f
    by_cases h : t = f
    · subst h; simp [TypeStore.new_conditional_type]
    · simp [TypeStore.new_conditional_type, h]
  · intro fuel s t f
    by_cases h : t = f
    · subst h; simp [TypeStore.new_conditional_type]
    · simp [TypeStore.new_conditional_type, h, TypeId.FALSE, TypeId.TRUE]
  · intro fuel s c
    by_cases h1 : c = TypeId.TRUE
    · subst h1; simp [TypeStore.new_conditional_type, TypeId.FALSE, TypeId.TRUE]
    · by_cases h2 : c = TypeId.FALSE
      · subst h2; simp [TypeStore.new_conditional_type, TypeId.FALSE, TypeId.TRUE]
      · have h1' : c ≠ 16 := h1
        have h2' : c ≠ 17 := h2
        simp [TypeStore.new_conditional_type, h1', h2', TypeId.FALSE, TypeId.TRUE]
  · intro fuel s c t f c' ru h1 h2 h3 h4 h5
    simp only [TypeStore.new_conditional_type, if_neg h1, if_neg h2, if_neg h3, if_neg h4]
    rw [h5]
    simp
  · intro fuel s c t f ty h1 h2 h3 h4 h5 h6
    simp only [TypeStore.new_conditional_type, if_neg h1, if_neg h2, if_neg h3, if_neg h4]
    rw [h5]
    cases ty with
    | Constructor tc =>
        cases tc with
        | ConditionalResult a b c d =>
            simp only [Ty.isNegationConditional, Bool.and_eq_false_iff,
              decide_eq_false_iff_not] at h6
            have : ¬(b = TypeId.FALSE ∧ c = TypeId.TRUE) := by
              rcases h6 with h | h
              · exact fun hc => h hc.1
              · exact fun hc => h hc.2
            simp [this]
        | TypeExtends a b => rfl
        | KeyOf a => rfl
    | Interface a b c => rfl
    | Class a b => rfl
    | AliasTo a b c => rfl
    | Constant a => rfl
    | Or a b => rfl
    | And a b => rfl
    | Object a => rfl
    | SpecialObject a => rfl
    | FunctionReference a => rfl
    | RootPolyType a => rfl
    | PartiallyAppliedGenerics a b => rfl
    | Narrowed a b => rfl

/-- Witness for C5 at concrete inputs: the negation-shaped condition at id
`57` of `demoNegationStore` recurses with swapped branches, and the open
boolean condition in the default store interns a `ConditionalResult` with
the `result_union` built by `new_or_type`. -/
theorem conditional_collapse_witness :
    demoNegationStore.get_type_by_id 57 =
      some (.Constructor (.ConditionalResult TypeId.OPEN_BOOLEAN_TYPE TypeId.FALSE TypeId.TRUE
        TypeId.BOOLEAN_TYPE)) ∧
    TypeStore.new_conditional_type 6 demoNegationStore 57 TypeId.ZERO TypeId.ONE =
      TypeStore.new_conditional_type 5 demoNegationStore TypeId.OPEN_BOOLEAN_TYPE
        TypeId.ONE TypeId.ZERO ∧
    TypeStore.default.get_type_by_id TypeId.OPEN_BOOLEAN_TYPE =
      some (.RootPolyType (.Open TypeId.BOOLEAN_TYPE)) ∧
    TypeStore.new_conditional_type 6 TypeStore.default TypeId.OPEN_BOOLEAN_TYPE
        TypeId.ZERO TypeId.ONE =
      (do
        let (result_union, s') ← TypeStore.new_or_type 5 TypeStore.default TypeId.ZERO TypeId.ONE
        s'.register_type (.Constructor (.ConditionalResult TypeId.OPEN_BOOLEAN_TYPE TypeId.ZERO
          TypeId.ONE result_union))) :=
  ⟨rfl,
    conditional_collapse.2.2.2.2.1 5 demoNegationStore 57 TypeId.ZERO TypeId.ONE
      TypeId.OPEN_BOOLEAN_TYPE TypeId.BOOLEAN_TYPE (by decide) (by decide) (by decide)
      (by decide) rfl,
    rfl,
    conditional_collapse.2.2.2.2.2 5 TypeStore.default TypeId.OPEN_BOOLEAN_TYPE TypeId.ZERO
      TypeId.ONE (.RootPolyType (.Open TypeId.BOOLEAN_TYPE)) (by decide) (by decide)
      (by decide) (by decide) rfl rfl⟩

/-- C4: `new_and_type` distributes over a union operand — when `a` resolves
to `Or(u, v)` the result is `new_or_type(new_and_type(u,b), new_and_type(v,b))`
computed in that order (symmetrically when only `b` is a union) — and when
neither operand is a union a constant operand dominates: its id is returned
unchanged with no new registration, the left operand taking precedence. -/
theorem intersection_distributivity_and_constants :
    (∀ (fuel : Nat) (s : TypeStore) (a b u v : TypeId) (tyb : Ty),
      a ≠ b → s.get_type_by_id a = some (.Or u v) → s.get_type_by_id b = some tyb →
      TypeStore.new_and_type (fuel + 1) s a b =
        (do
          let (new_lhs, s1) ← TypeStore.new_and_type fuel s u b
          let (new_rhs, s2) ← TypeStore.new_and_type fuel s1 v b
          TypeStore.new_or_type fuel s2 new_lhs new_rhs)) ∧
    (∀ (fuel : Nat) (s : TypeStore) (a b u v : TypeId) (tya : Ty),
      a ≠ b → s.get_type_by_id a = some tya → tya.isOrVariant = false →
      s.get_type_by_id b = some (.Or u v) →
      TypeStore.new_and_type (fuel + 1) s a b =
        (do
          let (new_lhs, s1) ← TypeStore.new_and_type fuel s a u
          let (new_rhs, s2) ← TypeStore.new_and_type fuel s1 a v
          TypeStore.new_or_type fuel s2 new_lhs new_rhs)) ∧
    (∀ (fuel : Nat) (s : TypeStore) (a b : TypeId) (k : Constant) (tyb : Ty),
      a ≠ b → s.get_type_by_id a = some (.Constant k) →
      s.get_type_by_id b = some tyb → tyb.isOrVariant = false →
      TypeStore.new_and_type (fuel + 1) s a b = some (a, s)) ∧
    (∀ (fuel : Nat) (s : TypeStore) (a b : TypeId) (k : Constant) (tya : Ty),
      a ≠ b → s.get_type_by_id a = some tya → tya.isOrVariant = false →
      tya.isConstantVariant = false → s.get_type_by_id b = some (.Constant k) →
      TypeStore.new_and_type (fuel + 1) s a b = some (b, s)) := by
  refine ⟨?_, ?_, ?_, ?_⟩
  · intro fuel s a b u v tyb hab ha hb
    simp only [TypeStore.new_and_type, if_neg hab]
    rw [ha, hb]
    cases tyb <;> rfl
  · intro fuel s a b u v tya hab ha hor hb
    simp only [TypeStore.new_and_type, if_neg hab]
    rw [ha, hb]
    cases tya <;> try rfl
    simp [Ty.isOrVariant] at hor
  · intro fuel s a b k tyb hab ha hb hor
    simp only [TypeStore.new_and_type, if_neg hab]
    rw [ha, hb]
    cases tyb <;> try rfl
    simp [Ty.isOrVariant] at hor
  · intro fuel s a b k tya hab ha hor hconst hb
    simp only [TypeStore.new_and_type, if_neg hab]
    rw [ha, hb]
    cases tya <;> try rfl
    · simp [Ty.isConstantVariant] at hconst
    · simp [Ty.isOrVariant] at hor

/-- Witness for C4 at concrete inputs in the default store: the built-in
union `string ∨ number` (id `56`) distributes over intersection with
`object` (id `12`) on either side, and the constant `ZERO` (id `18`)
dominates the intersection with the class `number` (id `4`) from either
side, with the store unchanged. -/
theorem intersection_distributivity_and_constants_witness :
    TypeStore.default.get_type_by_id TypeId.STRING_OR_NUMBER =
      some (.Or TypeId.STRING_TYPE TypeId.NUMBER_TYPE) ∧
    TypeStore.new_and_type 6 TypeStore.default TypeId.STRING_OR_NUMBER TypeId.OBJECT_TYPE =
      (do
        let (new_lhs, s1) ← TypeStore.new_and_type 5 TypeStore.default TypeId.STRING_TYPE
          TypeId.OBJECT_TYPE
        let (new_rhs, s2) ← TypeStore.new_and_type 5 s1 TypeId.NUMBER_TYPE TypeId.OBJECT_TYPE
        TypeStore.new_or_type 5 s2 new_lhs new_rhs) ∧
    TypeStore.new_and_type 6 TypeStore.default TypeId.OBJECT_TYPE TypeId.STRING_OR_NUMBER =
      (do
        let (new_lhs, s1) ← TypeStore.new_and_type 5 TypeStore.default TypeId.OBJECT_TYPE
          TypeId.STRING_TYPE
        let (new_rhs, s2) ← TypeStore.new_and_type 5 s1 TypeId.OBJECT_TYPE TypeId.NUMBER_TYPE
        TypeStore.new_or_type 5 s2 new_lhs new_rhs) ∧
    TypeStore.new_and_type 6 TypeStore.default TypeId.ZERO TypeId.NUMBER_TYPE =
      some (TypeId.ZERO, TypeStore.default) ∧
    TypeStore.new_and_type 6 TypeStore.default TypeId.NUMBER_TYPE TypeId.ZERO =
      some (TypeId.ZERO, TypeStore.default) :=
  ⟨rfl,
    intersection_distributivity_and_constants.1 5 TypeStore.default TypeId.STRING_OR_NUMBER
      TypeId.OBJECT_TYPE TypeId.STRING_TYPE TypeId.NUMBER_TYPE
      (Ty.Interface "object".toList none none) (by decide) rfl rfl,
    intersection_distributivity_and_constants.2.1 5 TypeStore.default TypeId.OBJECT_TYPE
      TypeId.STRING_OR_NUMBER TypeId.STRING_TYPE TypeId.NUMBER_TYPE
      (Ty.Interface "object".toList none none) (by decide) rfl rfl rfl,
    intersection_distributivity_and_constants.2.2.1 5 TypeStore.default TypeId.ZERO
      TypeId.NUMBER_TYPE (.Number (.finite 0 false)) (Ty.Class "number".toList none)
      (by decide) rfl rfl rfl,
    intersection_distributivity_and_constants.2.2.2 5 TypeStore.default TypeId.NUMBER_TYPE
      TypeId.ZERO (.Number (.finite 0 false)) (Ty.Class "number".toList none)
      (by decide) rfl rfl rfl rfl⟩

/-- C3 counterexample: with the three fresh interfaces `A`, `B`, `C` of
`demoAbcStore` at ids `57`, `58`, `59` — distinct, non-never, non-constant,
non-union — the association order `new_or_type(new_or_type(a,b), c)` returns
id `62` while `new_or_type(a, new_or_type(b,c))` returns id `61`: the two
orders do not return the same id (the left run also registers the
intermediate `Or(a,b)`, shifting the fresh ids). -/
theorem union_flattening_counterexample :
    (orAssocLeftRun 5 demoAbcStore 57 58 59).map Prod.fst = some 62 ∧
    (orAssocRightRun 5 demoAbcStore 57 58 59).map Prod.fst = some 61 ∧
    (62 : TypeId) ≠ 61 := by
  refine ⟨by decide, by decide, by decide⟩

theorem not_tf_pair {x y : TypeId} (hx1 : x ≠ TypeId.TRUE) (hx2 : x ≠ TypeId.FALSE) :
    ¬((x = TypeId.TRUE ∧ y = TypeId.FALSE) ∨ (x = TypeId.FALSE ∧ y = TypeId.TRUE)) :=
  fun h => h.elim (fun hh => hx1 hh.1) (fun hh => hx2 hh.1)

/-- `new_or_type` in the plain register case: distinct non-never operands,
neither the `{true, false}` pair, both resolving to non-union descriptors —
a fresh `Or(lhs, rhs)` is appended. -/
theorem new_or_type_register {n : Nat} {s : TypeStore} {x y : TypeId} {tyx tyy : Ty}
    (hxy : x ≠ y)
    (hTF : ¬((x = TypeId.TRUE ∧ y = TypeId.FALSE) ∨ (x = TypeId.FALSE ∧ y = TypeId.TRUE)))
    (hxnev : x ≠ TypeId.NEVER_TYPE) (hynev : y ≠ TypeId.NEVER_TYPE)
    (hgx : s.get_type_by_id x = some tyx) (hxOr : tyx.isOrVariant = false)
    (hgy : s.get_type_by_id y = some tyy) (hyOr : tyy.isOrVariant = false)
    (room : s.types.length ≤ 65535) :
    TypeStore.new_or_type (n + 1) s x y =
      some (s.count_of_types, TypeStore.mk (s.types ++ [.Or x y]) s.lookup_generic_map) := by
  simp only [TypeStore.new_or_type, if_neg hxy, if_neg hTF, if_neg hxnev, if_neg hynev]
  rw [hgx]
  cases tyx <;> try (simp [Ty.isOrVariant] at hxOr)
  all_goals rw [hgy]
  all_goals cases tyy <;> try (simp [Ty.isOrVariant] at hyOr)
  all_goals exact TypeStore.register_type_ok s _ room

/-- `new_or_type` when the right operand is a union absorbing neither side:
a fresh `Or(lhs, rhs)` is appended. -/
theorem new_or_type_rhs_or_register {n : Nat} {s : TypeStore} {x y u v : TypeId} {tyx : Ty}
    (hxy : x ≠ y)
    (hTF : ¬((x = TypeId.TRUE ∧ y = TypeId.FALSE) ∨ (x = TypeId.FALSE ∧ y = TypeId.TRUE)))
    (hxnev : x ≠ TypeId.NEVER_TYPE) (hynev : y ≠ TypeId.NEVER_TYPE)
    (hgx : s.get_type_by_id x = some tyx) (hxOr : tyx.isOrVariant = false)
    (hgy : s.get_type_by_id y = some (.Or u v)) (hxu : x ≠ u) (hxv : x ≠ v)
    (room : s.types.length ≤ 65535) :
    TypeStore.new_or_type (n + 1) s x y =
      some (s.count_of_types, TypeStore.mk (s.types ++ [.Or x y]) s.lookup_generic_map) := by
  simp only [TypeStore.new_or_type, if_neg hxy, if_neg hTF, if_neg hxnev, if_neg hynev]
  rw [hgx]
  cases tyx <;> try (simp [Ty.isOrVariant] at hxOr)
  all_goals rw [hgy]
  all_goals simp only [if_neg hxu, if_neg hxv]
  all_goals exact TypeStore.register_type_ok s _ room

/-- `new_or_type` when the left operand is a union: it flattens by combining
the left operand's right side with `rhs` first, then the left side with that
result. -/
theorem new_or_type_lhs_or_step {n : Nat} {s : TypeStore} {x y u v : TypeId}
    (hxy : x ≠ y)
    (hTF : ¬((x = TypeId.TRUE ∧ y = TypeId.FALSE) ∨ (x = TypeId.FALSE ∧ y = TypeId.TRUE)))
    (hxnev : x ≠ TypeId.NEVER_TYPE) (hynev : y ≠ TypeId.NEVER_TYPE)
    (hgx : s.get_type_by_id x = some (.Or u v)) :
    TypeStore.new_or_type (n + 1) s x y =
      (do
        let (rhs', s') ← TypeStore.new_or_type n s v y
        TypeStore.new_or_type n s' u rhs') := by
  simp only [TypeStore.new_or_type, if_neg hxy, if_neg hTF, if_neg hxnev, if_neg hynev]
  rw [hgx]

/-- C3 (amended): for any triple `(a, b, c)` of distinct ids — none `never`,
none `TRUE`/`FALSE` (as non-constants in intended stores), each resolving to
a non-union descriptor, in a store holding at least the built-ins and with
room to register — the two association orders flatten to the same
right-leaning shape: each returns an id resolving to `Or(a, m)` with `m`
resolving to `Or(b, c)`.  The returned ids themselves differ (see the
counterexample): the left order first registers the intermediate `Or(a,b)`,
so with identity-based interning the ids cannot coincide. -/
theorem union_flattening_shape (n : Nat) (s : TypeStore) (a b c : TypeId)
    (tya tyb tyc : Ty)
    (ha : s.get_type_by_id a = some tya) (hb : s.get_type_by_id b = some tyb)
    (hc : s.get_type_by_id c = some tyc)
    (haOr : tya.isOrVariant = false) (hbOr : tyb.isOrVariant = false)
    (hcOr : tyc.isOrVariant = false)
    (hab : a ≠ b) (hac : a ≠ c) (hbc : b ≠ c)
    (haT : a ≠ TypeId.TRUE) (haF : a ≠ TypeId.FALSE)
    (hbT : b ≠ TypeId.TRUE) (hbF : b ≠ TypeId.FALSE)
    (hcT : c ≠ TypeId.TRUE) (hcF : c ≠ TypeId.FALSE)
    (hanev : a ≠ TypeId.NEVER_TYPE) (hbnev : b ≠ TypeId.NEVER_TYPE)
    (hcnev : c ≠ TypeId.NEVER_TYPE)
    (hbig : TypeId.INTERNAL_TYPE_COUNT ≤ s.count_of_types)
    (room : s.count_of_types + 3 ≤ 65536) :
    ∃ (l r m1 m2 : TypeId) (s1 s2 : TypeStore),
      orAssocLeftRun (n + 2) s a b c = some (l, s1) ∧
      orAssocRightRun (n + 2) s a b c = some (r, s2) ∧
      s1.get_type_by_id l = some (.Or a m1) ∧ s1.get_type_by_id m1 = some (.Or b c) ∧
      s2.get_type_by_id r = some (.Or a m2) ∧ s2.get_type_by_id m2 = some (.Or b c) := by
  have hNa : a < s.count_of_types := TypeStore.get_lt_count ha
  have hNb : b < s.count_of_types := TypeStore.get_lt_count hb
  have hNc : c < s.count_of_types := TypeStore.get_lt_count hc
  have hT16 : TypeId.TRUE = 16 := rfl
  have hF17 : TypeId.FALSE = 17 := rfl
  have hNev1 : TypeId.NEVER_TYPE = 1 := rfl
  have hbig' : 57 ≤ s.count_of_types := by
    rw [show TypeId.INTERNAL_TYPE_COUNT = 57 from rfl] at hbig; exact hbig
  have hlen : s.count_of_types = s.types.length := rfl
  have room1 : s.types.length ≤ 65535 := by omega
  have hNT : s.count_of_types ≠ TypeId.TRUE := by
    rw [show TypeId.TRUE = 16 from rfl]; omega
  have hNF : s.count_of_types ≠ TypeId.FALSE := by
    rw [show TypeId.FALSE = 17 from rfl]; omega
  have hNnev : s.count_of_types ≠ TypeId.NEVER_TYPE := by
    rw [show TypeId.NEVER_TYPE = 1 from rfl]; omega
  have hN1T : s.count_of_types + 1 ≠ TypeId.TRUE := by
    rw [show TypeId.TRUE = 16 from rfl]; omega
  have hN1F : s.count_of_types + 1 ≠ TypeId.FALSE := by
    rw [show TypeId.FALSE = 17 from rfl]; omega
  have hN1nev : s.count_of_types + 1 ≠ TypeId.NEVER_TYPE := by
    rw [show TypeId.NEVER_TYPE = 1 from rfl]; omega
  -- Left run, first step: register Or(a, b).
  have e1 : TypeStore.new_or_type (n + 2) s a b =
      some (s.count_of_types, TypeStore.mk (s.types ++ [Ty.Or a b]) s.lookup_generic_map) :=
    new_or_type_register hab (not_tf_pair haT haF) hanev hbnev ha haOr hb hbOr room1
  -- Reads in the store extended with Or(a, b).
  have hgb1 : (TypeStore.mk (s.types ++ [Ty.Or a b]) s.lookup_generic_map).get_type_by_id b =
      some tyb := by
    rw [TypeStore.get_append_lt s _ _ b hNb]; exact hb
  have hgc1 : (TypeStore.mk (s.types ++ [Ty.Or a b]) s.lookup_generic_map).get_type_by_id c =
      some tyc := by
    rw [TypeStore.get_append_lt s _ _ c hNc]; exact hc
  have hl1 : (TypeStore.mk (s.types ++ [Ty.Or a b]) s.lookup_generic_map).types.length =
      s.count_of_types + 1 := by
    simp [hlen]
  -- Left run, inner step of the flattening: register Or(b, c).
  have e2 : TypeStore.new_or_type (n + 1)
      (TypeStore.mk (s.types ++ [Ty.Or a b]) s.lookup_generic_map) b c =
      some (s.count_of_types + 1,
        TypeStore.mk ((s.types ++ [Ty.Or a b]) ++ [Ty.Or b c]) s.lookup_generic_map) := by
    have := @new_or_type_register n _ b c tyb tyc hbc (not_tf_pair hbT hbF) hbnev hcnev
      hgb1 hbOr hgc1 hcOr (by simp [hlen] at hl1 ⊢; omega)
    rwa [show (TypeStore.mk (s.types ++ [Ty.Or a b]) s.lookup_generic_map).count_of_types =
      s.count_of_types + 1 from by simp [TypeStore.count_of_types, hlen]] at this
  -- Reads in the store further extended with Or(b, c).
  have hga2 : (TypeStore.mk ((s.types ++ [Ty.Or a b]) ++ [Ty.Or b c])
      s.lookup_generic_map).get_type_by_id a = some tya := by
    rw [TypeStore.get_append_lt (TypeStore.mk (s.types ++ [Ty.Or a b]) s.lookup_generic_map)
      _ _ a (by simp; exact Nat.lt_succ_of_lt hNa)]
    rw [TypeStore.get_append_lt s _ _ a hNa]; exact ha
  have hgm2 : (TypeStore.mk ((s.types ++ [Ty.Or a b]) ++ [Ty.Or b c])
      s.lookup_generic_map).get_type_by_id (s.count_of_types + 1) = some (.Or b c) := by
    have := TypeStore.get_append_self
      (TypeStore.mk (s.types ++ [Ty.Or a b]) s.lookup_generic_map) (Ty.Or b c)
      s.lookup_generic_map
    rwa [hl1] at this
  -- Left run, outer step of the flattening: register Or(a, Or(b, c)).
  have e3 : TypeStore.new_or_type (n + 1)
      (TypeStore.mk ((s.types ++ [Ty.Or a b]) ++ [Ty.Or b c]) s.lookup_generic_map) a
      (s.count_of_types + 1) =
      some (s.count_of_types + 2,
        TypeStore.mk (((s.types ++ [Ty.Or a b]) ++ [Ty.Or b c]) ++
          [Ty.Or a (s.count_of_types + 1)]) s.lookup_generic_map) := by
    have := @new_or_type_rhs_or_register n _ a (s.count_of_types + 1) b c tya
      (Nat.ne_of_lt (Nat.lt_succ_of_lt hNa)) (not_tf_pair haT haF) hanev hN1nev
      hga2 haOr hgm2 hab hac (by simp [hlen]; omega)
    rwa [show (TypeStore.mk ((s.types ++ [Ty.Or a b]) ++ [Ty.Or b c])
      s.lookup_generic_map).count_of_types = s.count_of_types + 2 from
      by simp [TypeStore.count_of_types, hlen]] at this
  -- Right run, first step: register Or(b, c).
  have e4 : TypeStore.new_or_type (n + 2) s b c =
      some (s.count_of_types, TypeStore.mk (s.types ++ [Ty.Or b c]) s.lookup_generic_map) :=
    new_or_type_register hbc (not_tf_pair hbT hbF) hbnev hcnev hb hbOr hc hcOr room1
  have hga1R : (TypeStore.mk (s.types ++ [Ty.Or b c]) s.lookup_generic_map).get_type_by_id a =
      some tya := by
    rw [TypeStore.get_append_lt s _ _ a hNa]; exact ha
  have hgm1R : (TypeStore.mk (s.types ++ [Ty.Or b c]) s.lookup_generic_map).get_type_by_id
      s.count_of_types = some (.Or b c) :=
    TypeStore.get_append_self s (Ty.Or b c) s.lookup_generic_map
  -- Right run, second step: register Or(a, Or(b, c)).
  have e5 : TypeStore.new_or_type (n + 2)
      (TypeStore.mk (s.types ++ [Ty.Or b c]) s.lookup_generic_map) a s.count_of_types =
      some (s.count_of_types + 1,
        TypeStore.mk ((s.types ++ [Ty.Or b c]) ++ [Ty.Or a s.count_of_types])
          s.lookup_generic_map) := by
    have := @new_or_type_rhs_or_register (n + 1) _ a s.count_of_types b c tya
      (Nat.ne_of_lt hNa) (not_tf_pair haT haF) hanev
      hNnev hga1R haOr hgm1R hab hac (by simp [hlen]; omega)
    rwa [show (TypeStore.mk (s.types ++ [Ty.Or b c]) s.lookup_generic_map).count_of_types =
      s.count_of_types + 1 from by simp [TypeStore.count_of_types, hlen]] at this
  refine ⟨s.count_of_types + 2, s.count_of_types + 1, s.count_of_types + 1, s.count_of_types,
    TypeStore.mk (((s.types ++ [Ty.Or a b]) ++ [Ty.Or b c]) ++
      [Ty.Or a (s.count_of_types + 1)]) s.lookup_generic_map,
    TypeStore.mk ((s.types ++ [Ty.Or b c]) ++ [Ty.Or a s.count_of_types])
      s.lookup_generic_map, ?_, ?_, ?_, ?_, ?_, ?_⟩
  · -- the left run
    unfold orAssocLeftRun
    rw [e1]
    show TypeStore.new_or_type (n + 2)
      (TypeStore.mk (s.types ++ [Ty.Or a b]) s.lookup_generic_map) s.count_of_types c = _
    rw [new_or_type_lhs_or_step (Ne.symm (Nat.ne_of_lt hNc)) (not_tf_pair hNT hNF) hNnev hcnev
      (TypeStore.get_append_self s (Ty.Or a b) s.lookup_generic_map)]
    rw [e2]
    show TypeStore.new_or_type (n + 1)
      (TypeStore.mk ((s.types ++ [Ty.Or a b]) ++ [Ty.Or b c]) s.lookup_generic_map) a
      (s.count_of_types + 1) = _
    exact e3
  · -- the right run
    unfold orAssocRightRun
    rw [e4]
    show TypeStore.new_or_type (n + 2)
      (TypeStore.mk (s.types ++ [Ty.Or b c]) s.lookup_generic_map) a s.count_of_types = _
    exact e5
  · have := TypeStore.get_append_self
      (TypeStore.mk ((s.types ++ [Ty.Or a b]) ++ [Ty.Or b c]) s.lookup_generic_map)
      (Ty.Or a (s.count_of_types + 1)) s.lookup_generic_map
    rwa [show (TypeStore.mk ((s.types ++ [Ty.Or a b]) ++ [Ty.Or b c])
      s.lookup_generic_map).types.length = s.count_of_types + 2 from by simp [hlen]] at this
  · rw [TypeStore.get_append_lt
      (TypeStore.mk ((s.types ++ [Ty.Or a b]) ++ [Ty.Or b c]) s.lookup_generic_map)
      _ _ (s.count_of_types + 1) (by simp [hlen])]
    exact hgm2
  · have := TypeStore.get_append_self
      (TypeStore.mk (s.types ++ [Ty.Or b c]) s.lookup_generic_map)
      (Ty.Or a s.count_of_types) s.lookup_generic_map
    rwa [show (TypeStore.mk (s.types ++ [Ty.Or b c]) s.lookup_generic_map).types.length =
      s.count_of_types + 1 from by simp [hlen]] at this
  · rw [TypeStore.get_append_lt
      (TypeStore.mk (s.types ++ [Ty.Or b c]) s.lookup_generic_map)
      _ _ s.count_of_types (by simp [hlen])]
    exact hgm1R

/-- Witness for the amended C3 at the concrete triple of `demoAbcStore`:
both runs produce ids resolving to `Or(57, m)` with `m` resolving to
`Or(58, 59)` — at ids `62`/`61` for the left run and `61`/`60` for the
right run. -/
theorem union_flattening_shape_witness :
    (orAssocLeftRun 5 demoAbcStore 57 58 59).map Prod.fst = some 62 ∧
    (orAssocLeftRun 5 demoAbcStore 57 58 59).bind
      (fun p => p.2.get_type_by_id 62) = some (.Or 57 61) ∧
    (orAssocLeftRun 5 demoAbcStore 57 58 59).bind
      (fun p => p.2.get_type_by_id 61) = some (.Or 58 59) ∧
    (orAssocRightRun 5 demoAbcStore 57 58 59).map Prod.fst = some 61 ∧
    (orAssocRightRun 5 demoAbcStore 57 58 59).bind
      (fun p => p.2.get_type_by_id 61) = some (.Or 57 60) ∧
    (orAssocRightRun 5 demoAbcStore 57 58 59).bind
      (fun p => p.2.get_type_by_id 60) = some (.Or 58 59) := by
  obtain ⟨l, r, m1, m2, s1, s2, e1, e2, g1, g2, g3, g4⟩ :=
    union_flattening_shape 3 demoAbcStore 57 58 59
      (Ty.Interface "A".toList none none) (Ty.Interface "B".toList none none)
      (Ty.Interface "C".toList none none) rfl rfl rfl rfl rfl rfl
      (by decide) (by decide) (by decide) (by decide) (by decide) (by decide)
      (by decide) (by decide) (by decide) (by decide) (by decide) (by decide)
      (by decide) (by decide)
  exact ⟨by decide, by decide, by decide, by decide, by decide, by decide⟩

theorem parseFlagChars_no_slash :
    ∀ (f : Str) (fl : RegressFlags) (u : Bool) (r : RegressFlags × Bool),
      parseFlagChars f fl u = some r → '/' ∉ f := by
  intro f
  induction f with
  | nil => intro fl u r h; simp
  | cons c rest ih =>
      intro fl u r h hmem
      rcases List.mem_cons.mp hmem with hc | hc
      · subst hc
        simp only [parseFlagChars] at h
        simp at h
      · simp only [parseFlagChars] at h
        split_ifs at h <;> first
          | exact (ih _ _ _ h) hc
          | simp at h

theorem rsplitOnce_not_mem {c : Char} : ∀ {s : Str}, c ∉ s → rsplitOnce c s = none := by
  intro s
  induction s with
  | nil => intro _; rfl
  | cons x xs ih =>
      intro h
      have hx : x ≠ c := fun e => h (by rw [e]; exact List.mem_cons_self _ _)
      have hxs : c ∉ xs := fun e => h (List.mem_cons_of_mem _ e)
      simp only [rsplitOnce, ih hxs, if_neg hx]

theorem rsplitOnce_append {c : Char} (p : Str) {f : Str} (hf : c ∉ f) :
    rsplitOnce c (p ++ c :: f) = some (p, f) := by
  induction p with
  | nil =>
      simp [rsplitOnce, rsplitOnce_not_mem hf]
  | cons x xs ih =>
      simp only [List.cons_append, rsplitOnce, List.append_eq, ih]

/-- C7: regex serialization round-trips — serialization writes the canonical
`/pattern/flags` source string, and deserialization (splitting the text
after the leading `/` at the rightmost `/`, treating empty flags as absent)
rebuilds, via the constructor, exactly the same compiled regex: it succeeds
for every previously valid regex and preserves the canonical source.  The
statement holds for an arbitrary external compiler function (which, being a
function, is deterministic). -/
theorem regexp_round_trip (compile : Str → RegressFlags → Except Str CompiledRegex)
    (pattern : Str) (flag_options : Option Str) (r : RegExpData)
    (h : RegExp.new compile pattern flag_options = some (.ok r)) :
    RegExp.serialize r = r.source ∧
    RegExp.deserialize compile (RegExp.serialize r) = some r := by
  refine ⟨rfl, ?_⟩
  simp only [RegExp.new] at h
  split at h
  · exact absurd h (by simp)
  · rename_i flags u hp
    split at h
    · exact absurd h (by simp)
    · rename_i compiled hcomp
      simp only [Option.some.injEq, Except.ok.injEq] at h
      subst h
      cases flag_options with
      | none =>
          simp only [RegExp.serialize, RegExp.deserialize]
          rw [show (('/' :: (pattern ++ ['/'])).drop 1) = pattern ++ '/' :: [] from rfl]
          rw [rsplitOnce_append pattern (by simp)]
          rw [Option.getD_none] at hp
          simp [RegExp.new, hp, hcomp]
      | some f =>
          have hslash : '/' ∉ f := parseFlagChars_no_slash f _ _ _ (by simpa using hp)
          simp only [RegExp.serialize, RegExp.deserialize]
          rw [show (('/' :: (pattern ++ '/' :: f)).drop 1) = pattern ++ '/' :: f from rfl]
          rw [rsplitOnce_append pattern hslash]
          cases f with
          | nil =>
              have hp' : parseFlagChars [] RegressFlags.default false = some (flags, u) := by
                simpa using hp
              have hfl : flags = RegressFlags.default := by
                simp only [parseFlagChars, Option.some.injEq, Prod.mk.injEq] at hp'
                exact hp'.1.symm
              have hu : u = false := by
                simp only [parseFlagChars, Option.some.injEq, Prod.mk.injEq] at hp'
                exact hp'.2.symm
              subst hfl
              subst hu
              simp [RegExp.new, hp', hcomp]
          | cons fc fs =>
              simp [RegExp.new,
                show Option.getD (some (fc :: fs)) [] = fc :: fs from rfl,
                show parseFlagChars (fc :: fs) RegressFlags.default false =
                  some (flags, u) from by simpa using hp, hcomp]

/-- Witness for C7 at a concrete input: pattern `ab` with flags `i` under
the concrete demo compiler round-trips to an identical compiled regex with
source `/ab/i`. -/
theorem regexp_round_trip_witness :
    RegExp.new demoCompile "ab".toList (some "i".toList) = some (.ok demoRegExpRoundTrip) ∧
    (RegExp.serialize demoRegExpRoundTrip = demoRegExpRoundTrip.source ∧
      RegExp.deserialize demoCompile (RegExp.serialize demoRegExpRoundTrip) =
        some demoRegExpRoundTrip) :=
  ⟨rfl, regexp_round_trip demoCompile "ab".toList (some "i".toList) demoRegExpRoundTrip rfl⟩

/-- C6 counterexample: in the flagship example itself (the year regex
against the constant `"2024-07"`, matching at start 0) the `index` property
of the result object is the reserved built-in `ZERO` id — an id that
existed before the call (`ZERO < count`), not a fresh numeric constant:
`new_constant_type` short-circuits `0.0`. -/
theorem regexp_index_not_fresh_counterexample :
    (RegExp.exec demoYearRegExp demoYearFind 5 57 demoExecStore (Env.mk [])).bind
      (fun p => ((p.2.2.find 58).bind
        (fun record => (record.properties.find?
          (fun q => q.1 = PropKey.str "index".toList)).map Prod.snd))) =
      some TypeId.ZERO ∧
    TypeId.ZERO < demoExecStore.count_of_types := ⟨by decide, by decide⟩

theorem appendPositionalGroups_unmatched (pattern : Str) (obj : TypeId) :
    ∀ (groups : List (Option (Nat × Nat))) (idx : Nat) (s : TypeStore) (env : Env),
      none ∈ groups → appendPositionalGroups pattern obj groups idx s env = none := by
  intro groups
  induction groups with
  | nil => intro idx s env h; simp at h
  | cons g rest ih =>
      intro idx s env h
      cases g with
      | none => rfl
      | some range =>
          have hrest : none ∈ rest := by
            rcases List.mem_cons.mp h with h1 | h1
            · exact absurd h1 (by simp)
            · exact h1
          simp only [appendPositionalGroups]
          cases hc : s.new_constant_type (.String (sliceRange pattern range)) with
          | none => rfl
          | some p =>
              obtain ⟨v, s'⟩ := p
              exact ih (idx + 1) s' (env.appendProperty obj (.num idx) v) hrest

/-- C10: concrete regex evaluation is partial — when the matcher reports a
match in which some positional capturing group did not participate,
`exec_constant` reaches the `todo!` branch of the positional-group loop and
aborts (`none`); in particular `(a)(b)?` against the constant string `"a"`
aborts the whole `exec` evaluation. -/
theorem regexp_unmatched_group_panics :
    (∀ (pattern : Str) (obj : TypeId) (groups : List (Option (Nat × Nat))) (idx : Nat)
      (s : TypeStore) (env : Env), none ∈ groups →
      appendPositionalGroups pattern obj groups idx s env = none) ∧
    (∀ (self : RegExpData) (find : Str → Option MatchData) (pattern : Str)
      (pid : TypeId) (s : TypeStore) (env : Env) (m : MatchData),
      find pattern = some m → none ∈ m.groups →
      RegExp.exec_constant self find pattern pid s env = none) ∧
    RegExp.exec demoOptRegExp demoOptFind 5 57 demoOptStore (Env.mk []) = none := by
  refine ⟨appendPositionalGroups_unmatched, ?_, by decide⟩
  intro self find pattern pid s env m hfind hnone
  simp only [RegExp.exec_constant]
  cases hob : ObjectBuilder.new (some TypeId.ARRAY_TYPE) s env with
  | none => rfl
  | some t =>
      obtain ⟨obj, s', env'⟩ := t
      show (match find pattern with
        | some m => _
        | none => _) = none
      rw [hfind]
      show (do
        let (index, s) ← s'.new_constant_type (.Number (.ofNat m.start))
        let env := (env'.appendProperty obj (.str "input".toList) pid).appendProperty obj
          (.str "index".toList) index
        let (s, env) ← appendPositionalGroups pattern obj m.groups 0 s env
        let (named_groups, s, env) ← ObjectBuilder.new (some TypeId.NULL_TYPE) s env
        let (s, env) ← appendNamedGroups pattern named_groups m.namedGroups s env
        let env := env.appendProperty obj (.str "groups".toList) named_groups
        let (length, s) ← s.new_constant_type (.Number (.ofNat self.groups))
        let env := env.appendProperty obj (.str "length".toList) length
        some (obj, s, env) : Option (TypeId × TypeStore × Env)) = none
      cases hc : s'.new_constant_type (.Number (.ofNat m.start)) with
      | none => rfl
      | some p =>
          obtain ⟨index, s2⟩ := p
          show (do
            let (s, env) ← appendPositionalGroups pattern obj m.groups 0 s2
              (((env'.appendProperty obj (.str "input".toList) pid).appendProperty obj
                (.str "index".toList) index))
            let (named_groups, s, env) ← ObjectBuilder.new (some TypeId.NULL_TYPE) s env
            let (s, env) ← appendNamedGroups pattern named_groups m.namedGroups s env
            let env := env.appendProperty obj (.str "groups".toList) named_groups
            let (length, s) ← s.new_constant_type (.Number (.ofNat self.groups))
            let env := env.appendProperty obj (.str "length".toList) length
            some (obj, s, env) : Option (TypeId × TypeStore × Env)) = none
          rw [appendPositionalGroups_unmatched pattern obj m.groups 0 s2 _ hnone]
          rfl

/-- Witness for C10 at the concrete input: the matcher's report for
`(a)(b)?` on `"a"` leaves its second capturing group unmatched, and
`exec_constant` aborts. -/
theorem regexp_unmatched_group_panics_witness :
    demoOptFind "a".toList =
      some (MatchData.mk 0 [some (0, 1), some (0, 1), none] []) ∧
    RegExp.exec_constant demoOptRegExp demoOptFind "a".toList 57 demoOptStore
      (Env.mk []) = none :=
  ⟨rfl, regexp_unmatched_group_panics.2.1 demoOptRegExp demoOptFind "a".toList 57
    demoOptStore (Env.mk []) (MatchData.mk 0 [some (0, 1), some (0, 1), none] [])
    rfl (by decide)⟩

/-- C6 (amended): executing a regex with fully supported flags against a
`Constant::String` operand evaluates concretely — with no match the result
is the null type id (the already-built result object is left orphaned in
the store); with a match the result is an `Array`-prototyped object whose
`input` is the original string constant's id, whose `index` is the interned
numeric constant of the match start (the reserved `ZERO` id when the start
is `0`, a fresh registration otherwise), whose positional properties
`0..group_count-1` are string constants sliced from the input, whose
`groups` is a null-prototyped object with one sliced string constant per
named group, and whose `length` is a numeric constant equal to
capturing-group count + 1.  The example `^(?<year>\d{4})-(\d{2})$` against
`"2024-07"` yields `index = ZERO` (start 0), `1 = "2024"`, `2 = "07"`,
`groups.year = "2024"`, `length = 3`. -/
theorem regexp_exec_concrete :
    (∀ (self : RegExpData) (find : Str → Option MatchData) (pattern : Str)
      (pid : TypeId) (s : TypeStore),
      find pattern = none → s.types.length ≤ 65535 →
      RegExp.exec_constant self find pattern pid s (Env.mk []) =
        some (TypeId.NULL_TYPE,
          TypeStore.mk (s.types ++ [.Object .RealDeal]) s.lookup_generic_map,
          Env.mk [(s.count_of_types,
            ObjectRecord.mk (some TypeId.ARRAY_TYPE) [(.str "input".toList, pid)])])) ∧
    (RegExp.exec demoYearRegExp demoYearFind 5 57 demoNoMatchStore (Env.mk [])).map
      (fun p => p.1) = some TypeId.NULL_TYPE ∧
    (RegExp.exec demoYearRegExp demoYearFind 5 57 demoExecStore (Env.mk [])).map
      (fun p => p.1) = some 58 ∧
    (RegExp.exec demoYearRegExp demoYearFind 5 57 demoExecStore (Env.mk [])).bind
      (fun p => p.2.2.find 58) =
      some (ObjectRecord.mk (some TypeId.ARRAY_TYPE)
        [(.str "input".toList, 57), (.str "index".toList, TypeId.ZERO),
          (.num 0, 59), (.num 1, 60), (.num 2, 61),
          (.str "groups".toList, 62), (.str "length".toList, 64)]) ∧
    (RegExp.exec demoYearRegExp demoYearFind 5 57 demoExecStore (Env.mk [])).bind
      (fun p => p.2.2.find 62) =
      some (ObjectRecord.mk (some TypeId.NULL_TYPE) [(.str "year".toList, 63)]) ∧
    (RegExp.exec demoYearRegExp demoYearFind 5 57 demoExecStore (Env.mk [])).bind
      (fun p => p.2.1.get_type_by_id 59) = some (.Constant (.String "2024-07".toList)) ∧
    (RegExp.exec demoYearRegExp demoYearFind 5 57 demoExecStore (Env.mk [])).bind
      (fun p => p.2.1.get_type_by_id 60) = some (.Constant (.String "2024".toList)) ∧
    (RegExp.exec demoYearRegExp demoYearFind 5 57 demoExecStore (Env.mk [])).bind
      (fun p => p.2.1.get_type_by_id 61) = some (.Constant (.String "07".toList)) ∧
    (RegExp.exec demoYearRegExp demoYearFind 5 57 demoExecStore (Env.mk [])).bind
      (fun p => p.2.1.get_type_by_id 63) = some (.Constant (.String "2024".toList)) ∧
    (RegExp.exec demoYearRegExp demoYearFind 5 57 demoExecStore (Env.mk [])).bind
      (fun p => p.2.1.get_type_by_id 64) = some (.Constant (.Number (.finite 3 false))) := by
  refine ⟨?_, by decide, by decide, by decide, by decide, by decide, by decide, by decide,
    by decide, by decide⟩
  intro self find pattern pid s hfind room
  simp only [RegExp.exec_constant, ObjectBuilder.new, TypeStore.register_type_ok s _ room]
  simp [hfind, Env.appendProperty]

/-- Witness for the amended C6: the generic no-match branch applied at the
concrete no-match input (the year regex against `"late"`). -/
theorem regexp_exec_concrete_witness :
    demoYearFind "late".toList = none ∧
    RegExp.exec_constant demoYearRegExp demoYearFind "late".toList 57 demoNoMatchStore
      (Env.mk []) =
      some (TypeId.NULL_TYPE,
        TypeStore.mk (demoNoMatchStore.types ++ [.Object .RealDeal])
          demoNoMatchStore.lookup_generic_map,
        Env.mk [(demoNoMatchStore.count_of_types,
          ObjectRecord.mk (some TypeId.ARRAY_TYPE) [(.str "input".toList, 57)])]) :=
  ⟨rfl, regexp_exec_concrete.1 demoYearRegExp demoYearFind "late".toList 57
    demoNoMatchStore rfl (by decide)⟩
